import Mathlib

/-!
# AIGA Connect client (`frontend/src/App.js`)

A shallow embedding of the session / view-routing logic of the single-page
client: the `AuthProvider` state and its start-up effect, `handleAuthReturn`,
`fetchUserProfile`, `logout`, the `App` view selection, the registration
form's `handleSubmit`, the dashboard's list fetches, booking and booking
button, and runs of the page as sequences of events.

Conventions of the embedding.

* A React component's `useState` cells are fields of a record; an `async`
  function is a pure function from the server's answer and the state before
  to the state after it has run to completion.
* Effects the code has on the outside world are recorded in the state: the
  requests issued (in order), the arguments passed to `alert`, and the calls
  of `console.error`.
* JavaScript numbers are exact signed decimals together with `NaN` and the
  two infinities; rounding to IEEE doubles is not modelled.
* The navigation fragment is held as the sequence of name/value pairs that
  `new URLSearchParams(window.location.hash.substring(1))` exposes; the code
  reads the fragment only through `get('session_id')` and writes only `''`.
* A hook serves only while a component renders: `useAuth()` called from an
  effect callback, an event handler or an `async` function they start throws.
-/

namespace AigaCase

/-! ## JavaScript values -/

/-- JavaScript numbers: `NaN`, plus or minus `Infinity`, or the finite value
`mantissa * 10 ^ exp10` with its sign. -/
inductive JSNum where
  | nan
  | inf (neg : Bool)
  | fin (neg : Bool) (mantissa : Nat) (exp10 : Int)
  deriving DecidableEq, Repr

/-- JavaScript values as they occur in JSON bodies and in component state. -/
inductive JSVal where
  | undefined
  | null
  | bool (b : Bool)
  | num (n : JSNum)
  | str (s : String)
  | obj (fields : List (String × JSVal))

/-- The token cell: `null` (nothing stored), `undefined` (a response without
`session_token`) or a string. -/
inductive Tok where
  | undefined
  | null
  | str (s : String)
  deriving DecidableEq, Repr

/-- JavaScript truthiness of a number: everything but `NaN` and zero. -/
def JSNum.truthy : JSNum → Bool
  | .nan => false
  | .inf _ => true
  | .fin _ mantissa _ => decide (mantissa ≠ 0)

/-- JavaScript truthiness (`ToBoolean`). -/
def JSVal.truthy : JSVal → Bool
  | .undefined => false
  | .null => false
  | .bool b => b
  | .num n => n.truthy
  | .str s => decide (s ≠ "")
  | .obj _ => true

/-- Truthiness of the token cell, the test of `if (sessionToken)`. -/
def Tok.truthy : Tok → Bool
  | .undefined => false
  | .null => false
  | .str s => decide (s ≠ "")

/-- The string `localStorage.setItem` stores for a token value (`ToString`). -/
def Tok.toStr : Tok → String
  | .undefined => "undefined"
  | .null => "null"
  | .str s => s

/-- The value of `localStorage.getItem('session_token')`: `null` when the entry
is absent, the stored string otherwise. -/
def Tok.ofStorage : Option String → Tok
  | none => .null
  | some s => .str s

/-- First value bound to a key in a property list. -/
def lookupField (key : String) : List (String × JSVal) → JSVal
  | [] => .undefined
  | (k, v) :: rest => if k = key then v else lookupField key rest

/-- Property read `v.key` on a value that is neither `null` nor `undefined`:
the property of an object, `undefined` on a primitive. -/
def JSVal.get (v : JSVal) (key : String) : JSVal :=
  match v with
  | .obj fields => lookupField key fields
  | _ => .undefined

/-- Whether a property read on the value throws a `TypeError`. -/
def JSVal.isNullish : JSVal → Bool
  | .undefined => true
  | .null => true
  | _ => false

/-! ## The `App` component -/

/-- The four screens `App` can return. -/
inductive View where
  | LOADING
  | LANDING
  | REGISTRATION
  | DASHBOARD
  deriving DecidableEq, Repr

/-- The value the effect of `App` (keyed on `user`) gives `showRegistration`:
`user && !user.profile_completed`. -/
def showRegistrationEffect (user : JSVal) : Bool :=
  user.truthy && !(user.get "profile_completed").truthy

/-- The body of `App` after its hooks: the screen returned for the current
`loading`, `showRegistration` and `user`. -/
def App.render (loading showRegistration : Bool) (user : JSVal) : View :=
  if loading then .LOADING
  else if showRegistration then .REGISTRATION
  else if user.truthy && (user.get "profile_completed").truthy then .DASHBOARD
  else .LANDING

/-- The screen rendered once the `showRegistration` effect has run for the
current `user`. -/
def App.view (loading : Bool) (user : JSVal) : View :=
  App.render loading (showRegistrationEffect user) user

/-! ## The page: `AuthProvider`, browser storage, fragment, recorded effects -/

/-- Answer to one `fetch`: the promise rejects (transport failure), or a
response arrives with a status and a body; `body = none` means that reading
the body as the expected JSON value throws. -/
inductive FetchResult (α : Type) where
  | networkError
  | response (status : Nat) (body : Option α)

/-- The test `response.ok`: the status is in the range 200 to 299. -/
def responseOk (status : Nat) : Bool :=
  decide (200 ≤ status) && decide (status ≤ 299)

/-- The decoded body of `POST /api/auth/session` as `handleAuthReturn` reads
it: the two properties `data.session_token` and `data.user`. A body on which
these reads throw (JSON `null`) counts as undecodable. -/
structure SessionBody where
  session_token : Tok
  user : JSVal

/-- The requests the client can issue, with what each carries. The
`booking_date` of a booking (the current time) is left out. -/
inductive Request where
  | authSession (session_id : String)
  | usersProfile (bearer : Tok)
  | completeProfile (bearer : Tok) (body : JSVal)
  | trainingSessions
  | bookingsMy (bearer : Tok)
  | bookings (bearer : Tok) (session_id : JSVal) (student_id : JSVal)

/-- State of the page: the three `useState` cells of `AuthProvider`, the
`showRegistration` cell of `App`, the `session_token` entry of `localStorage`
(`none` when absent), the parameters of the navigation fragment, and the
effects recorded so far. -/
structure Page where
  user : JSVal
  sessionToken : Tok
  loading : Bool
  showRegistration : Bool
  storage : Option String
  hash : List (String × String)
  requests : List Request
  alerts : List JSVal
  consoleErrors : List String

/-- State at mount: `user = null`, `sessionToken` read from storage,
`loading = true`, `showRegistration = false`, nothing issued yet. -/
def Page.init (storage : Option String) (hash : List (String × String)) : Page :=
  { user := .null
    sessionToken := Tok.ofStorage storage
    loading := true
    showRegistration := false
    storage := storage
    hash := hash
    requests := []
    alerts := []
    consoleErrors := [] }

/-- The screen `App` returns in a state. -/
def Page.render (p : Page) : View :=
  App.render p.loading p.showRegistration p.user

/-- The effect of `App`, run after a render in which `user` changed. -/
def Page.appEffect (p : Page) : Page :=
  { p with showRegistration := showRegistrationEffect p.user }

/-- The screen shown once the effect of `App` has run for the current user. -/
def Page.screen (p : Page) : View :=
  p.appEffect.render

/-- The method `get` of `URLSearchParams`: the first value bound to the name,
`none` for `null`. -/
def searchParamsGet (name : String) : List (String × String) → Option String
  | [] => none
  | (k, v) :: rest => if k = name then some v else searchParamsGet name rest

/-- The function `logout`. -/
def logout (p : Page) : Page :=
  { p with user := .null, sessionToken := .null, storage := none }

/-- The function `handleAuthReturn`, run to completion on the answer to
`POST /api/auth/session`. The body is decoded before `response.ok` is tested,
so an undecodable body reaches the `catch` whatever the status. -/
def handleAuthReturn (sessionId : String) (answer : FetchResult SessionBody) (p : Page) : Page :=
  let p1 := { p with requests := p.requests ++ [Request.authSession sessionId] }
  match answer with
  | .networkError =>
      { p1 with consoleErrors := p1.consoleErrors ++ ["Auth error:"], loading := false }
  | .response _ none =>
      { p1 with consoleErrors := p1.consoleErrors ++ ["Auth error:"], loading := false }
  | .response status (some data) =>
      if responseOk status then
        { p1 with
          sessionToken := data.session_token
          storage := some data.session_token.toStr
          user := data.user
          hash := []
          loading := false }
      else
        { p1 with loading := false }

/-- The function `fetchUserProfile`, run to completion on the answer to
`GET /api/users/profile`. The body is read only when `response.ok`. -/
def fetchUserProfile (answer : FetchResult JSVal) (p : Page) : Page :=
  let p1 := { p with requests := p.requests ++ [Request.usersProfile p.sessionToken] }
  match answer with
  | .networkError =>
      { logout { p1 with consoleErrors := p1.consoleErrors ++ ["Profile fetch error:"] } with
        loading := false }
  | .response status body =>
      if responseOk status then
        match body with
        | some userData => { p1 with user := userData, loading := false }
        | none =>
            { logout { p1 with consoleErrors := p1.consoleErrors ++ ["Profile fetch error:"] } with
              loading := false }
      else
        { logout p1 with loading := false }

/-- What one evaluation of the effect of `AuthProvider` starts. -/
inductive StartupAction where
  | fetchUserProfile
  | handleAuthReturn (sessionId : String)
  | setLoadingFalse

/-- The branch the effect of `AuthProvider` takes: the token when it is truthy,
else a truthy `session_id` of the fragment, else `setLoading(false)`. -/
def startupAction (p : Page) : StartupAction :=
  if p.sessionToken.truthy then .fetchUserProfile
  else
    match searchParamsGet "session_id" p.hash with
    | some sessionId => if sessionId ≠ "" then .handleAuthReturn sessionId else .setLoadingFalse
    | none => .setLoadingFalse

/-- One evaluation of the effect of `AuthProvider` (at mount and after every
change of `sessionToken`), with the function it starts run to completion on
the answer the server gives to it. -/
def startupEffect (profile : FetchResult JSVal) (exchange : FetchResult SessionBody)
    (p : Page) : Page :=
  match startupAction p with
  | .fetchUserProfile => fetchUserProfile profile p
  | .handleAuthReturn sessionId => handleAuthReturn sessionId exchange p
  | .setLoadingFalse => { p with loading := false }

/-- The requests a state has issued beyond those of an earlier state. -/
def issuedSince (before after : Page) : List Request :=
  after.requests.drop before.requests.length

/-! ## `parseInt` and `parseFloat` -/

/-- White space and line terminators skipped at the start of a numeric string. -/
def isStrWhiteSpaceChar (c : Char) : Bool :=
  let n := c.toNat
  n = 0x09 || n = 0x0A || n = 0x0B || n = 0x0C || n = 0x0D || n = 0x20 || n = 0xA0
    || n = 0x1680 || (0x2000 ≤ n && n ≤ 0x200A) || n = 0x2028 || n = 0x2029
    || n = 0x202F || n = 0x205F || n = 0x3000 || n = 0xFEFF

/-- Value of a character as a digit: `0` to `9`, then letters of either case
from ten on. -/
def digitValue (c : Char) : Option Nat :=
  let n := c.toNat
  if 48 ≤ n ∧ n ≤ 57 then some (n - 48)
  else if 97 ≤ n ∧ n ≤ 122 then some (n - 87)
  else if 65 ≤ n ∧ n ≤ 90 then some (n - 55)
  else none

/-- Whether a character is a digit of the radix. -/
def isRadixDigit (radix : Nat) (c : Char) : Bool :=
  match digitValue c with
  | some d => decide (d < radix)
  | none => false

/-- The number a run of digits denotes in the radix. -/
def digitsValue (radix : Nat) (ds : List Char) : Nat :=
  ds.foldl (fun acc c => acc * radix + (digitValue c).getD 0) 0

/-- Whether the trimmed text starts with a minus sign. -/
def hasMinus : List Char → Bool
  | '-' :: _ => true
  | _ => false

/-- The text after an optional leading sign. -/
def dropSign : List Char → List Char
  | '-' :: rest => rest
  | '+' :: rest => rest
  | cs => cs

/-- The global `parseInt(string)` with no radix argument: leading white space
is skipped, a sign and a `0x` or `0X` marker are read, and the longest run of
digits of the radix is converted; `NaN` when that run is empty. -/
def parseInt (s : String) : JSNum :=
  let trimmed := s.data.dropWhile isStrWhiteSpaceChar
  let unsigned := dropSign trimmed
  let radix : Nat :=
    match unsigned with
    | '0' :: 'x' :: _ => 16
    | '0' :: 'X' :: _ => 16
    | _ => 10
  let body :=
    match unsigned with
    | '0' :: 'x' :: rest => rest
    | '0' :: 'X' :: rest => rest
    | cs => cs
  let z := body.takeWhile (isRadixDigit radix)
  if z.isEmpty then .nan else .fin (hasMinus trimmed) (digitsValue radix z) 0

/-- The exponent a decimal literal carries after its digits: `e` or `E`, an
optional sign and at least one digit; zero when there is no such part. -/
def exponentPart : List Char → Int
  | c :: rest =>
      if c = 'e' ∨ c = 'E' then
        match rest with
        | '-' :: ds => -(digitsValue 10 (ds.takeWhile (isRadixDigit 10)) : Int)
        | '+' :: ds => (digitsValue 10 (ds.takeWhile (isRadixDigit 10)) : Int)
        | ds => (digitsValue 10 (ds.takeWhile (isRadixDigit 10)) : Int)
      else 0
  | [] => 0

/-- The global `parseFloat(string)`: leading white space is skipped and the
longest prefix that is a signed decimal literal (`Infinity`, or digits with an
optional fraction and exponent) is converted; `NaN` when there is none. -/
def parseFloat (s : String) : JSNum :=
  let trimmed := s.data.dropWhile isStrWhiteSpaceChar
  let unsigned := dropSign trimmed
  if "Infinity".data.isPrefixOf unsigned then .inf (hasMinus trimmed)
  else
    let intDigits := unsigned.takeWhile (isRadixDigit 10)
    let afterInt := unsigned.dropWhile (isRadixDigit 10)
    let fracDigits :=
      match afterInt with
      | '.' :: rest => rest.takeWhile (isRadixDigit 10)
      | _ => []
    let afterFrac :=
      match afterInt with
      | '.' :: rest => rest.dropWhile (isRadixDigit 10)
      | cs => cs
    if intDigits.isEmpty && fracDigits.isEmpty then .nan
    else
      .fin (hasMinus trimmed) (digitsValue 10 (intDigits ++ fracDigits))
        (exponentPart afterFrac - fracDigits.length)

/-! ## The registration form -/

/-- The `formData` cell of `RegistrationForm`: eleven text fields. -/
structure FormData where
  name : String
  email : String
  phone : String
  age : String
  weight : String
  height : String
  martial_arts_experience : String
  goals : String
  medical_conditions : String
  emergency_contact : String
  role : String

/-- The initial `formData`: every field empty but `role`. -/
def FormData.initial : FormData :=
  { name := "", email := "", phone := "", age := "", weight := "", height := ""
    martial_arts_experience := "", goals := "", medical_conditions := ""
    emergency_contact := "", role := "student" }

/-- The properties of `formData`, in the order of the source. -/
def FormData.fields (f : FormData) : List (String × JSVal) :=
  [ ("name", .str f.name), ("email", .str f.email), ("phone", .str f.phone),
    ("age", .str f.age), ("weight", .str f.weight), ("height", .str f.height),
    ("martial_arts_experience", .str f.martial_arts_experience), ("goals", .str f.goals),
    ("medical_conditions", .str f.medical_conditions),
    ("emergency_contact", .str f.emergency_contact), ("role", .str f.role) ]

/-- The object given to `JSON.stringify` in `handleSubmit`: `formData` with
`age`, `weight` and `height` replaced by `parseInt` and `parseFloat` of their
text. (`JSON.stringify` writes a `NaN` as `null`.) -/
def submitBody (f : FormData) : JSVal :=
  .obj
    [ ("name", .str f.name), ("email", .str f.email), ("phone", .str f.phone),
      ("age", .num (parseInt f.age)), ("weight", .num (parseFloat f.weight)),
      ("height", .num (parseFloat f.height)),
      ("martial_arts_experience", .str f.martial_arts_experience), ("goals", .str f.goals),
      ("medical_conditions", .str f.medical_conditions),
      ("emergency_contact", .str f.emergency_contact), ("role", .str f.role) ]

/-- The object `updatedUser` of `handleSubmit`: the properties of `formData`
followed by `profile_completed: true`. -/
def updatedUser (f : FormData) : JSVal :=
  .obj (f.fields ++ [("profile_completed", .bool true)])

/-- The two `useState` cells of `RegistrationForm`. -/
structure RegistrationForm where
  formData : FormData
  loading : Bool

/-- The function `handleSubmit` of `RegistrationForm`, run to completion on
the answer to `POST /api/users/complete-profile`; `onComplete` is the callback
`App` passes, `setShowRegistration(false)`. The body of the answer is never
read. -/
def handleSubmit (answer : FetchResult JSVal) (p : Page) (r : RegistrationForm) :
    Page × RegistrationForm :=
  let p1 :=
    { p with
      requests := p.requests ++ [Request.completeProfile p.sessionToken (submitBody r.formData)] }
  match answer with
  | .networkError =>
      ({ p1 with consoleErrors := p1.consoleErrors ++ ["Registration error:"] },
        { r with loading := false })
  | .response status _ =>
      if responseOk status then
        ({ p1 with user := updatedUser r.formData, showRegistration := false },
          { r with loading := false })
      else
        (p1, { r with loading := false })

/-! ## The rendered form: constraint validation

The controls of the form carry `required` and `type` attributes; the browser
fires the `submit` event of the form, and so calls `handleSubmit`, only when
every control satisfies its constraints, and otherwise reports the first
invalid control. The `step` of the number inputs is not modelled. -/

/-- The exponent part of a valid floating-point number, when there is one: `e`
or `E`, an optional sign and one or more digits up to the end of the text. -/
def isExponentOrEmpty : List Char → Bool
  | [] => true
  | c :: rest =>
      (c = 'e' || c = 'E') &&
        (match rest with
         | '-' :: ds => !ds.isEmpty && ds.all (isRadixDigit 10)
         | '+' :: ds => !ds.isEmpty && ds.all (isRadixDigit 10)
         | ds => !ds.isEmpty && ds.all (isRadixDigit 10))

/-- The text after an optional leading minus sign. -/
def dropMinus : List Char → List Char
  | '-' :: rest => rest
  | cs => cs

/-- A valid floating-point number of HTML, the only non-empty text the value of
an `input` of `type="number"` can hold: an optional minus sign; digits, or a dot
and digits, or both in that order; an optional exponent. -/
def isValidFloatingPointNumber (s : String) : Bool :=
  let intDigits := (dropMinus s.data).takeWhile (isRadixDigit 10)
  match (dropMinus s.data).dropWhile (isRadixDigit 10) with
  | '.' :: rest =>
      !(rest.takeWhile (isRadixDigit 10)).isEmpty &&
        isExponentOrEmpty (rest.dropWhile (isRadixDigit 10))
  | rest => !intDigits.isEmpty && isExponentOrEmpty rest

/-- An ASCII letter or digit. -/
def isAsciiAlphanumeric (c : Char) : Bool :=
  let n := c.toNat
  (48 ≤ n && n ≤ 57) || (65 ≤ n && n ≤ 90) || (97 ≤ n && n ≤ 122)

/-- A character of the part of an e-mail address before the `@`. -/
def isEmailLocalChar (c : Char) : Bool :=
  isAsciiAlphanumeric c || ".!#$%&\x27*+/=?^_\x60\x7b|\x7d~-".data.contains c

/-- A label of the domain of an e-mail address: at most 63 letters, digits and
hyphens, the first and the last not a hyphen. -/
def isEmailLabel (cs : List Char) : Bool :=
  !cs.isEmpty && decide (cs.length ≤ 63) && cs.all (fun c => isAsciiAlphanumeric c || c = '-')
    && (cs.head?.map isAsciiAlphanumeric).getD false
    && (cs.getLast?.map isAsciiAlphanumeric).getD false

/-- A valid e-mail address of HTML, the constraint of an `input` of
`type="email"`. -/
def isValidEmailAddress (s : String) : Bool :=
  match s.data.dropWhile (fun c => c ≠ '@') with
  | '@' :: domain =>
      !(s.data.takeWhile (fun c => c ≠ '@')).isEmpty &&
        (s.data.takeWhile (fun c => c ≠ '@')).all isEmailLocalChar &&
        (domain.splitOn '.').all isEmailLabel
  | _ => false

/-- Whether the controls of the form satisfy their constraints: `name`,
`phone`, `martial_arts_experience`, `goals` and `emergency_contact` are
`required`; `email` is `required` with `type="email"`; `age`, `weight` and
`height` are `required` with `type="number"`; `medical_conditions` and `role`
are free. -/
def formValid (f : FormData) : Bool :=
  decide (f.name ≠ "") && isValidEmailAddress f.email && decide (f.phone ≠ "")
    && isValidFloatingPointNumber f.age && isValidFloatingPointNumber f.weight
    && isValidFloatingPointNumber f.height && decide (f.martial_arts_experience ≠ "")
    && decide (f.goals ≠ "") && decide (f.emergency_contact ≠ "")

/-- A press of the submit button of the form: `handleSubmit` runs when the
controls are valid, and nothing of the component runs otherwise. -/
def submitForm (answer : FetchResult JSVal) (p : Page) (r : RegistrationForm) :
    Page × RegistrationForm :=
  if formValid r.formData then handleSubmit answer p r else (p, r)

/-! ## The dashboard -/

/-- The four `useState` cells of `Dashboard`. -/
structure Dashboard where
  activeTab : String
  trainingSessions : List JSVal
  myBookings : List JSVal
  loading : Bool

/-- The cells of `Dashboard` at mount. -/
def Dashboard.init : Dashboard :=
  { activeTab := "training", trainingSessions := [], myBookings := [], loading := false }

/-- Whether the bookings tab shows the block guarded by
`myBookings.length === 0` (the text that there are no bookings yet). -/
def Dashboard.showsNoBookings (d : Dashboard) : Bool :=
  decide (d.myBookings.length = 0)

/-- The function `fetchTrainingSessions`, run to completion on the answer to
`GET /api/training-sessions`. -/
def fetchTrainingSessions (answer : FetchResult (List JSVal)) (p : Page) (d : Dashboard) :
    Page × Dashboard :=
  let p1 := { p with requests := p.requests ++ [Request.trainingSessions] }
  match answer with
  | .networkError =>
      ({ p1 with consoleErrors := p1.consoleErrors ++ ["Error fetching sessions:"] }, d)
  | .response status body =>
      if responseOk status then
        match body with
        | some sessions => (p1, { d with trainingSessions := sessions })
        | none => ({ p1 with consoleErrors := p1.consoleErrors ++ ["Error fetching sessions:"] }, d)
      else
        (p1, d)

/-- When a function of a component runs: while the component renders, or
afterwards (an effect callback, an event handler, the body of an `async`
function they start). -/
inductive Phase where
  | render
  | afterRender

/-- The hook `useAuth`, read for the `sessionToken` of the context value.
React serves `useContext` only while a component renders; called afterwards it
throws (`none`). -/
def useAuth (phase : Phase) (p : Page) : Option Tok :=
  match phase with
  | .render => some p.sessionToken
  | .afterRender => none

/-- The function `fetchMyBookings`, run to completion on the answer to
`GET /api/bookings/my`. Its first statement, before the `try`, calls
`useAuth()`; the function is started by the mount effect of `Dashboard` and by
`bookSession`, never during a render, so the call throws: the promise rejects
and the `try` block, which would issue the request, is not entered. -/
def fetchMyBookings (answer : FetchResult (List JSVal)) (p : Page) (d : Dashboard) :
    Page × Dashboard :=
  match useAuth .afterRender p with
  | none => (p, d)
  | some sessionToken =>
      let p1 := { p with requests := p.requests ++ [Request.bookingsMy sessionToken] }
      match answer with
      | .networkError =>
          ({ p1 with consoleErrors := p1.consoleErrors ++ ["Error fetching bookings:"] }, d)
      | .response status body =>
          if responseOk status then
            match body with
            | some bookings => (p1, { d with myBookings := bookings })
            | none =>
                ({ p1 with consoleErrors := p1.consoleErrors ++ ["Error fetching bookings:"] }, d)
          else
            (p1, d)

/-- The `catch` and `finally` of `bookSession`. -/
def bookSessionCatch (p : Page) (d : Dashboard) : Page × Dashboard :=
  ({ p with
     consoleErrors := p.consoleErrors ++ ["Booking error:"]
     alerts := p.alerts ++ [JSVal.str "Ошибка при бронировании тренировки"] },
    { d with loading := false })

/-- The function `bookSession`, run to completion on the answers to
`POST /api/bookings` and, after a 2xx, to the two list requests it awaits in
turn. Its first statement, before `setLoading(true)` and the `try`, calls
`useAuth()`; the function is started by the `onClick` of the booking button,
never during a render, so the call throws: the promise rejects and nothing of
the rest runs. -/
def bookSession (sessionId : JSVal) (post : FetchResult JSVal)
    (sessions mine : FetchResult (List JSVal)) (p : Page) (d : Dashboard) : Page × Dashboard :=
  match useAuth .afterRender p with
  | none => (p, d)
  | some sessionToken =>
      if p.user.isNullish then bookSessionCatch p d
      else
        let p1 :=
          { p with
            requests :=
              p.requests ++ [Request.bookings sessionToken sessionId (p.user.get "user_id")] }
        match post with
        | .networkError => bookSessionCatch p1 d
        | .response status body =>
            if responseOk status then
              let s1 := fetchTrainingSessions sessions p1 d
              let s2 := fetchMyBookings mine s1.1 s1.2
              ({ s2.1 with
                 alerts := s2.1.alerts ++ [JSVal.str "Тренировка успешно забронирована!"] },
                { s2.2 with loading := false })
            else
              match body with
              | none => bookSessionCatch p1 d
              | some error =>
                  if error.isNullish then bookSessionCatch p1 d
                  else
                    let detail := error.get "detail"
                    ({ p1 with
                       alerts :=
                         p1.alerts ++
                           [if detail.truthy then detail
                            else JSVal.str "Ошибка при бронировании"] },
                      { d with loading := false })

/-! ## Failed answers -/

/-- A fetch that fails: the request throws, or the response is not 2xx. -/
def FetchResult.failed {α : Type} : FetchResult α → Bool
  | .networkError => true
  | .response status _ => !responseOk status

/-- A code exchange that fails: the request throws, the body cannot be
decoded, or the response is not 2xx. -/
def exchangeFailed : FetchResult SessionBody → Bool
  | .networkError => true
  | .response _ none => true
  | .response status (some _) => !responseOk status

/-! ## Concrete runs -/

/-- A user object of a new account: identified, profile not completed. -/
def newUser : JSVal :=
  .obj [("user_id", .str "u1"), ("profile_completed", .bool false)]

/-- A user object of an account with a completed profile. -/
def completedUser : JSVal :=
  .obj [("user_id", .str "u1"), ("profile_completed", .bool true)]

/-- A page loaded with the stored token `t` while the fragment carries
`session_id=abc`; the profile fetch was answered 200 with `completedUser`. -/
def signedInWithFragment : Page :=
  (startupEffect (.response 200 (some completedUser)) .networkError
    (Page.init (some "t") [("session_id", "abc")])).appEffect

/-- A page loaded with the stored token `t` and an empty fragment; the profile
fetch was answered 200 with `completedUser`. -/
def signedIn : Page :=
  (startupEffect (.response 200 (some completedUser)) .networkError
    (Page.init (some "t") [])).appEffect

/-- A page loaded with no stored token and the fragment `session_id=abc`; the
exchange was answered 200 with the token `t` and `newUser`. -/
def registering : Page :=
  (startupEffect .networkError (.response 200 (some ⟨.str "t", newUser⟩))
    (Page.init none [("session_id", "abc")])).appEffect

/-- A registration form filled in with well-formed text. -/
def filledForm : FormData :=
  { name := "Aliya", email := "aliya@example.com", phone := "+77010000000", age := "25"
    weight := "60.5", height := "170", martial_arts_experience := "beginner"
    goals := "fitness", medical_conditions := "", emergency_contact := "Dana +77020000000"
    role := "student" }

/-- The filled form with the age typed as `.25e2`, a valid floating-point
number whose value is 25. -/
def dottedAgeForm : FormData :=
  { filledForm with age := ".25e2" }

/-! ## The booking button -/

/-- A finite number as an integer multiple of `10 ^ low`, for `low` at most its
exponent. -/
def JSNum.scaled (neg : Bool) (mantissa : Nat) (exp10 low : Int) : Int :=
  (if neg then -(mantissa : Int) else (mantissa : Int)) * 10 ^ (exp10 - low).toNat

/-- The operator `>=` on two numbers: false when either is `NaN`. -/
def JSNum.ge : JSNum → JSNum → Bool
  | .nan, _ => false
  | .inf _, .nan => false
  | .inf a, .inf b => !a || b
  | .inf a, .fin _ _ _ => !a
  | .fin _ _ _, .nan => false
  | .fin _ _ _, .inf b => b
  | .fin na ma ea, .fin nb mb eb =>
      decide (JSNum.scaled nb mb eb (min ea eb) ≤ JSNum.scaled na ma ea (min ea eb))

/-- The operator `==` on two numbers: false when either is `NaN`. -/
def JSNum.looseEq : JSNum → JSNum → Bool
  | .inf a, .inf b => a == b
  | .fin na ma ea, .fin nb mb eb =>
      decide (JSNum.scaled na ma ea (min ea eb) = JSNum.scaled nb mb eb (min ea eb))
  | _, _ => false

/-- The attribute `disabled` of the booking button of a session whose two
counts are numbers: `loading || current_participants >= max_participants`. -/
def bookButtonDisabled (loading : Bool) (current_participants max_participants : JSNum) : Bool :=
  loading || current_participants.ge max_participants

/-- The text of the booking button of a session whose two counts are numbers. -/
def bookButtonLabel (current_participants max_participants : JSNum) : String :=
  if current_participants.ge max_participants then "Мест нет" else "Записаться"

/-! ## Lists after a booking -/

/-- The value of a list cell after a fetch of it: the body of a 2xx answer that
decodes, the prior value otherwise. -/
def FetchResult.bodyOr (answer : FetchResult (List JSVal)) (prior : List JSVal) : List JSVal :=
  match answer with
  | .response status (some body) => if responseOk status then body else prior
  | _ => prior

/-! ## Runs of the page -/

/-- The page together with the dependency the effect of `AuthProvider` saw at
its last evaluation (`none` before the first). React evaluates the effect after
mount and after each render in which `sessionToken` differs from that value. -/
structure Session where
  page : Page
  effectDeps : Option Tok

/-- The page at load. -/
def Session.start (storage : Option String) (hash : List (String × String)) : Session :=
  { page := Page.init storage hash, effectDeps := none }

/-- Whether an evaluation of the effect of `AuthProvider` is due. -/
def Session.effectPending (s : Session) : Bool :=
  decide (s.effectDeps ≠ some s.page.sessionToken)

/-- What can happen on the page: React evaluates the start-up effect (with the
answers the server will give), the user presses the logout button of the
dashboard, or the user submits the registration form. -/
inductive Event where
  | effect (profile : FetchResult JSVal) (exchange : FetchResult SessionBody)
  | logout
  | submit (answer : FetchResult JSVal) (form : FormData)

/-- One event, `none` when it cannot happen in the state: the effect runs only
when due, the logout button exists only on the dashboard, the form only on the
registration screen, and due effects run before the user acts. The effect of
`App` runs after each. -/
def Session.step (s : Session) : Event → Option Session
  | .effect profile exchange =>
      if s.effectPending then
        some { page := (startupEffect profile exchange s.page).appEffect
               effectDeps := some s.page.sessionToken }
      else none
  | .logout =>
      if !s.effectPending && decide (s.page.screen = View.DASHBOARD) then
        some { s with page := (logout s.page).appEffect }
      else none
  | .submit answer form =>
      if !s.effectPending && decide (s.page.screen = View.REGISTRATION) then
        some { s with page := (handleSubmit answer s.page ⟨form, false⟩).1.appEffect }
      else none

/-- A sequence of events, `none` when one of them cannot happen. -/
def Session.run (s : Session) : List Event → Option Session
  | [] => some s
  | e :: es =>
      match s.step e with
      | some s1 => s1.run es
      | none => none

/-- Whether a request is a code exchange. -/
def Request.isAuthSession : Request → Bool
  | .authSession _ => true
  | _ => false

/-- How many times `handleAuthReturn` has been invoked: the code exchanges
among the requests issued. -/
def exchangeCount (p : Page) : Nat :=
  (p.requests.filter Request.isAuthSession).length

/-- The token read from storage is the token in memory: what a reload would
restore is what the page holds. -/
def Page.storeConsistent (p : Page) : Prop :=
  Tok.ofStorage p.storage = p.sessionToken

/-- The cells of the page without the recorded effects. -/
def Page.cells (p : Page) : Page :=
  { p with requests := [], alerts := [], consoleErrors := [] }

/-- What holds of a run in which the code has been exchanged at most once:
nothing exchanged yet and no user without a token; or one exchange that
emptied the fragment; or one exchange that failed, leaving no user, no token
and no effect due. -/
def Session.exchangeInv (s : Session) : Prop :=
  (exchangeCount s.page = 0 ∧ (s.page.sessionToken.truthy = false → s.page.user = JSVal.null)) ∨
  (exchangeCount s.page = 1 ∧ s.page.hash = []) ∨
  (exchangeCount s.page = 1 ∧ s.page.user = JSVal.null ∧ s.page.sessionToken.truthy = false ∧
    s.effectDeps = some s.page.sessionToken)

/-- A page loaded with no stored token and the fragment `session_id=abc`; the
exchange was answered 200 with a body that carries a user but no
`session_token`. -/
def exchangedWithoutToken : Page :=
  (startupEffect .networkError (.response 200 (some ⟨.undefined, completedUser⟩))
    (Page.init none [("session_id", "abc")])).appEffect

/-- The page after one evaluation of the start-up effect and the effect of
`App` that follows it: the page an `effect` event leaves. -/
def Page.onEffect (profile : FetchResult JSVal) (exchange : FetchResult SessionBody)
    (p : Page) : Page :=
  (startupEffect profile exchange p).appEffect

/-- A run from a load with the stored token `t` and the fragment
`session_id=abc`: the profile is fetched, the user logs out, the code is
exchanged for the token `t2`, the profile is fetched for it, and the user logs
out again. -/
def logoutTwice : List Event :=
  [ Event.effect (.response 200 (some completedUser)) .networkError,
    Event.logout,
    Event.effect .networkError (.response 200 (some ⟨.str "t2", completedUser⟩)),
    Event.effect (.response 200 (some completedUser)) .networkError,
    Event.logout,
    Event.effect .networkError .networkError ]

/-- The state the run `logoutTwice` ends in. -/
def afterLogoutTwice : Session :=
  ((Session.start (some "t") [("session_id", "abc")]).run logoutTwice).getD
    (Session.start none [])

/-! ## View selection -/

/-- The screen as a cascade of tests on `loading`, `user` and
`user.profile_completed`. -/
theorem App.view_eq (loading : Bool) (user : JSVal) :
    App.view loading user =
      if loading then View.LOADING
      else if user.truthy = false then View.LANDING
      else if (user.get "profile_completed").truthy = false then View.REGISTRATION
      else View.DASHBOARD := by
  unfold App.view App.render showRegistrationEffect
  cases loading <;> cases hu : user.truthy <;>
    cases hp : (user.get "profile_completed").truthy <;> simp

/-- The screen for a user object whose `profile_completed` is a boolean. -/
theorem App.view_object (loading : Bool) (user : JSVal) :
    (∀ fields, user = JSVal.obj fields →
      lookupField "profile_completed" fields = JSVal.bool false →
      App.view loading user = if loading then View.LOADING else View.REGISTRATION) ∧
    (∀ fields, user = JSVal.obj fields →
      lookupField "profile_completed" fields = JSVal.bool true →
      App.view loading user = if loading then View.LOADING else View.DASHBOARD) := by
  rw [App.view_eq]
  constructor <;> intro fields hu hp <;> cases loading <;>
    simp [hu, JSVal.truthy, JSVal.get, hp]

/-- C1: with the effect of `App` run for the current user, the screen is LOADING
while `loading` holds; otherwise LANDING for a `null` user; otherwise, for a user
object, REGISTRATION when `profile_completed` is `false` or missing and DASHBOARD
when it is `true`. DASHBOARD is shown only with `loading` false, a user that is
not `null` and a `profile_completed` that is not `false`. -/
theorem C1_view_selection (loading : Bool) (user : JSVal) :
    (loading = true → App.view loading user = View.LOADING) ∧
    (loading = false → user = JSVal.null → App.view loading user = View.LANDING) ∧
    (loading = false → ∀ fields, user = JSVal.obj fields →
      (lookupField "profile_completed" fields = JSVal.bool false ∨
        lookupField "profile_completed" fields = JSVal.undefined) →
      App.view loading user = View.REGISTRATION) ∧
    (loading = false → ∀ fields, user = JSVal.obj fields →
      lookupField "profile_completed" fields = JSVal.bool true →
      App.view loading user = View.DASHBOARD) ∧
    (App.view loading user = View.DASHBOARD →
      loading = false ∧ user ≠ JSVal.null ∧ user.get "profile_completed" ≠ JSVal.undefined ∧
        ∀ b, user.get "profile_completed" = JSVal.bool b → b = true) := by
  rw [App.view_eq]
  refine ⟨?_, ?_, ?_, ?_, ?_⟩
  · intro h; simp [h]
  · intro h hu; simp [h, hu, JSVal.truthy]
  · intro h fields hu hp
    rcases hp with hp | hp <;> simp [h, hu, JSVal.truthy, JSVal.get, hp]
  · intro h fields hu hp
    simp [h, hu, JSVal.truthy, JSVal.get, hp]
  · intro h
    cases loading
    · cases hu : user.truthy
      · simp [hu] at h
      · cases hp : (user.get "profile_completed").truthy
        · simp [hu, hp] at h
        · refine ⟨rfl, ?_, ?_, ?_⟩
          · intro hn; simp [hn, JSVal.truthy] at hu
          · intro hn; simp [hn, JSVal.truthy] at hp
          · intro b hb; simpa [hb, JSVal.truthy] using hp
    · simp at h

/-- Witness for C1: the four screens at concrete users. -/
theorem C1_view_selection_witness :
    App.view false (JSVal.obj [("user_id", JSVal.str "u1"), ("profile_completed", JSVal.bool true)])
        = View.DASHBOARD ∧
      App.view false (JSVal.obj [("user_id", JSVal.str "u1")]) = View.REGISTRATION ∧
      App.view false JSVal.null = View.LANDING ∧
      App.view true JSVal.null = View.LOADING :=
  ⟨(C1_view_selection false _).2.2.2.1 rfl _ rfl rfl,
    (C1_view_selection false _).2.2.1 rfl _ rfl (Or.inr rfl),
    (C1_view_selection false _).2.1 rfl rfl,
    (C1_view_selection true JSVal.null).1 rfl⟩

/-! ## Start-up -/

/-- A truthy token selects the profile fetch. -/
theorem startupAction_token (p : Page) (h : p.sessionToken.truthy = true) :
    startupAction p = StartupAction.fetchUserProfile := by
  simp [startupAction, h]

/-- Without a token, a non-empty `session_id` selects the code exchange. -/
theorem startupAction_fragment (p : Page) (sid : String) (h : p.sessionToken.truthy = false)
    (hsid : searchParamsGet "session_id" p.hash = some sid) (hne : sid ≠ "") :
    startupAction p = StartupAction.handleAuthReturn sid := by
  simp [startupAction, h, hsid, hne]

/-- Without a token and without a `session_id`, the effect only clears `loading`. -/
theorem startupAction_none (p : Page) (h : p.sessionToken.truthy = false)
    (hsid : searchParamsGet "session_id" p.hash = none ∨
      searchParamsGet "session_id" p.hash = some "") :
    startupAction p = StartupAction.setLoadingFalse := by
  rcases hsid with hsid | hsid <;> simp [startupAction, h, hsid]

/-- The profile fetch issues exactly its own request. -/
theorem fetchUserProfile_requests (answer : FetchResult JSVal) (p : Page) :
    (fetchUserProfile answer p).requests = p.requests ++ [Request.usersProfile p.sessionToken] := by
  unfold fetchUserProfile
  rcases answer with _ | ⟨status, body⟩
  · rfl
  · cases hok : responseOk status
    · simp [hok, logout]
    · cases body <;> simp [hok, logout]

/-- The code exchange issues exactly its own request. -/
theorem handleAuthReturn_requests (sid : String) (answer : FetchResult SessionBody) (p : Page) :
    (handleAuthReturn sid answer p).requests = p.requests ++ [Request.authSession sid] := by
  unfold handleAuthReturn
  rcases answer with _ | ⟨status, _ | data⟩
  · rfl
  · rfl
  · cases hok : responseOk status <;> simp [hok]

/-- C2: one evaluation of the start-up effect at mount. With a stored token (a
non-empty string) the profile fetch is the only request, whatever the fragment;
with none, a `session_id` in the fragment makes the code exchange with that value
the only request; with neither, no request is issued, `loading` becomes false,
`user` stays `null` and the screen is LANDING. -/
theorem C2_startup_precedence (storage : Option String) (hash : List (String × String))
    (profile : FetchResult JSVal) (exchange : FetchResult SessionBody) :
    (∀ t, storage = some t → t ≠ "" →
      startupEffect profile exchange (Page.init storage hash)
          = fetchUserProfile profile (Page.init storage hash) ∧
        (startupEffect profile exchange (Page.init storage hash)).requests
          = [Request.usersProfile (Tok.str t)]) ∧
    ((storage = none ∨ storage = some "") →
      ∀ sid, searchParamsGet "session_id" hash = some sid → sid ≠ "" →
        startupEffect profile exchange (Page.init storage hash)
            = handleAuthReturn sid exchange (Page.init storage hash) ∧
          (startupEffect profile exchange (Page.init storage hash)).requests
            = [Request.authSession sid]) ∧
    ((storage = none ∨ storage = some "") →
      (searchParamsGet "session_id" hash = none ∨ searchParamsGet "session_id" hash = some "") →
        (startupEffect profile exchange (Page.init storage hash)).requests = [] ∧
          (startupEffect profile exchange (Page.init storage hash)).loading = false ∧
          (startupEffect profile exchange (Page.init storage hash)).user = JSVal.null ∧
          (startupEffect profile exchange (Page.init storage hash)).render = View.LANDING) := by
  refine ⟨?_, ?_, ?_⟩
  · intro t ht hne
    have htok : (Page.init storage hash).sessionToken.truthy = true := by
      simp [Page.init, ht, Tok.ofStorage, Tok.truthy, hne]
    have hact := startupAction_token _ htok
    have heq : startupEffect profile exchange (Page.init storage hash)
        = fetchUserProfile profile (Page.init storage hash) := by
      simp [startupEffect, hact]
    refine ⟨heq, ?_⟩
    rw [heq, fetchUserProfile_requests]
    simp [Page.init, ht, Tok.ofStorage]
  · intro hs sid hsid hne
    have htok : (Page.init storage hash).sessionToken.truthy = false := by
      rcases hs with hs | hs <;> simp [Page.init, hs, Tok.ofStorage, Tok.truthy]
    have hact := startupAction_fragment (Page.init storage hash) sid htok hsid hne
    have heq : startupEffect profile exchange (Page.init storage hash)
        = handleAuthReturn sid exchange (Page.init storage hash) := by
      simp [startupEffect, hact]
    refine ⟨heq, ?_⟩
    rw [heq, handleAuthReturn_requests]
    simp [Page.init]
  · intro hs hsid
    have htok : (Page.init storage hash).sessionToken.truthy = false := by
      rcases hs with hs | hs <;> simp [Page.init, hs, Tok.ofStorage, Tok.truthy]
    have hact := startupAction_none (Page.init storage hash) htok hsid
    have heq : startupEffect profile exchange (Page.init storage hash)
        = { Page.init storage hash with loading := false } := by
      simp [startupEffect, hact]
    rw [heq]
    simp [Page.init, Page.render, App.render, JSVal.truthy]

/-- Witness for C2: the three branches at concrete start-up states. -/
theorem C2_startup_precedence_witness :
    (startupEffect (FetchResult.response 200 (some JSVal.null)) FetchResult.networkError
        (Page.init (some "t") [("session_id", "abc")])).requests
        = [Request.usersProfile (Tok.str "t")] ∧
      (startupEffect FetchResult.networkError FetchResult.networkError
        (Page.init none [("session_id", "abc")])).requests = [Request.authSession "abc"] ∧
      (startupEffect FetchResult.networkError FetchResult.networkError
        (Page.init none [])).render = View.LANDING :=
  ⟨((C2_startup_precedence (some "t") [("session_id", "abc")] _ _).1 "t" rfl (by decide)).2,
    ((C2_startup_precedence none [("session_id", "abc")] _ _).2.1 (Or.inl rfl) "abc" rfl
      (by decide)).2,
    ((C2_startup_precedence none [] _ _).2.2 (Or.inl rfl) (Or.inl rfl)).2.2.2⟩

/-! ## Profile fetch, code exchange, logout -/

/-- The state a failed profile fetch leaves: that of `logout`, with the request
recorded and `loading` false. -/
theorem fetchUserProfile_failed (answer : FetchResult JSVal) (p : Page)
    (h : answer.failed = true) :
    fetchUserProfile answer p =
      { logout p with
        requests := p.requests ++ [Request.usersProfile p.sessionToken]
        consoleErrors :=
          match answer with
          | FetchResult.networkError => p.consoleErrors ++ ["Profile fetch error:"]
          | FetchResult.response _ _ => p.consoleErrors
        loading := false } := by
  unfold fetchUserProfile
  rcases answer with _ | ⟨status, body⟩
  · rfl
  · have hok : responseOk status = false := by simpa [FetchResult.failed] using h
    simp [hok, logout]

/-- C3: when the profile fetch ends with a response that is not 2xx, or with a
network error, the state it leaves has the in-memory token `null`, no persisted
`session_token` entry, `user` `null` and `loading` false, and the screen is
LANDING. -/
theorem C3_profile_fetch_failure (answer : FetchResult JSVal) (p : Page)
    (h : answer.failed = true) :
    (fetchUserProfile answer p).sessionToken = Tok.null ∧
      (fetchUserProfile answer p).storage = none ∧
      (fetchUserProfile answer p).user = JSVal.null ∧
      (fetchUserProfile answer p).loading = false ∧
      (fetchUserProfile answer p).screen = View.LANDING ∧
      (p.showRegistration = false → (fetchUserProfile answer p).render = View.LANDING) := by
  rw [fetchUserProfile_failed answer p h]
  refine ⟨rfl, rfl, rfl, rfl, rfl, ?_⟩
  intro hs
  simp [Page.render, App.render, logout, hs, JSVal.truthy]

/-- Witness for C3: a stored token and a 401 answer at start-up. -/
theorem C3_profile_fetch_failure_witness :
    (FetchResult.response 401 (none : Option JSVal)).failed = true ∧
      (startupEffect (FetchResult.response 401 none) FetchResult.networkError
        (Page.init (some "t") [])).render = View.LANDING ∧
      (startupEffect (FetchResult.response 401 none) FetchResult.networkError
        (Page.init (some "t") [])).storage = none :=
  ⟨by decide,
    (C3_profile_fetch_failure (FetchResult.response 401 none) (Page.init (some "t") [])
      (by decide)).2.2.2.2.2 rfl,
    (C3_profile_fetch_failure (FetchResult.response 401 none) (Page.init (some "t") [])
      (by decide)).2.1⟩

/-- C5: with no stored token and a `session_id` in the fragment, a 2xx answer
carrying `session_token` and `user` leaves the in-memory token and the persisted
entry equal to `session_token`, `user` equal to the returned user, the fragment
empty and `loading` false; the screen is REGISTRATION when the returned user has
`profile_completed` false and DASHBOARD when it is true. -/
theorem C5_exchange_success (storage : Option String) (hash : List (String × String))
    (sid t : String) (status : Nat) (u : JSVal) (profile : FetchResult JSVal)
    (hstore : (Tok.ofStorage storage).truthy = false)
    (hsid : searchParamsGet "session_id" hash = some sid) (hne : sid ≠ "")
    (hok : responseOk status = true) :
    startupEffect profile (FetchResult.response status (some ⟨Tok.str t, u⟩))
        (Page.init storage hash)
        = handleAuthReturn sid (FetchResult.response status (some ⟨Tok.str t, u⟩))
            (Page.init storage hash) ∧
      (handleAuthReturn sid (FetchResult.response status (some ⟨Tok.str t, u⟩))
        (Page.init storage hash)).sessionToken = Tok.str t ∧
      (handleAuthReturn sid (FetchResult.response status (some ⟨Tok.str t, u⟩))
        (Page.init storage hash)).storage = some t ∧
      (handleAuthReturn sid (FetchResult.response status (some ⟨Tok.str t, u⟩))
        (Page.init storage hash)).user = u ∧
      (handleAuthReturn sid (FetchResult.response status (some ⟨Tok.str t, u⟩))
        (Page.init storage hash)).hash = [] ∧
      (handleAuthReturn sid (FetchResult.response status (some ⟨Tok.str t, u⟩))
        (Page.init storage hash)).loading = false ∧
      (∀ fields, u = JSVal.obj fields →
        lookupField "profile_completed" fields = JSVal.bool false →
        (handleAuthReturn sid (FetchResult.response status (some ⟨Tok.str t, u⟩))
          (Page.init storage hash)).screen = View.REGISTRATION) ∧
      (∀ fields, u = JSVal.obj fields →
        lookupField "profile_completed" fields = JSVal.bool true →
        (handleAuthReturn sid (FetchResult.response status (some ⟨Tok.str t, u⟩))
          (Page.init storage hash)).screen = View.DASHBOARD) := by
  have hact := startupAction_fragment (Page.init storage hash) sid hstore hsid hne
  have hrun : handleAuthReturn sid (FetchResult.response status (some ⟨Tok.str t, u⟩))
      (Page.init storage hash) =
      { Page.init storage hash with
        requests := [Request.authSession sid]
        sessionToken := Tok.str t
        storage := some t
        user := u
        hash := []
        loading := false } := by
    simp [handleAuthReturn, hok, Page.init, Tok.toStr]
  refine ⟨by simp [startupEffect, hact], ?_⟩
  rw [hrun]
  refine ⟨rfl, rfl, rfl, rfl, rfl, ?_, ?_⟩
  · intro fields hu hp
    have := (App.view_object false u).1 fields hu hp
    simpa [Page.screen, Page.render, Page.appEffect, App.view] using this
  · intro fields hu hp
    have := (App.view_object false u).2 fields hu hp
    simpa [Page.screen, Page.render, Page.appEffect, App.view] using this

/-- Witness for C5: the fragment `session_id=abc` and a 200 answer whose user has
`profile_completed` false. -/
theorem C5_exchange_success_witness :
    (startupEffect FetchResult.networkError
        (FetchResult.response 200
          (some ⟨Tok.str "tok", JSVal.obj [("profile_completed", JSVal.bool false)]⟩))
        (Page.init none [("session_id", "abc")])).screen = View.REGISTRATION ∧
      (startupEffect FetchResult.networkError
        (FetchResult.response 200
          (some ⟨Tok.str "tok", JSVal.obj [("profile_completed", JSVal.bool false)]⟩))
        (Page.init none [("session_id", "abc")])).hash = [] :=
  have h := C5_exchange_success none [("session_id", "abc")] "abc" "tok" 200
    (JSVal.obj [("profile_completed", JSVal.bool false)]) FetchResult.networkError
    rfl rfl (by decide) (by decide)
  ⟨h.1 ▸ h.2.2.2.2.2.2.1 _ rfl rfl, h.1 ▸ h.2.2.2.2.1⟩

/-- The state a failed code exchange leaves: the one before, with the request
recorded and `loading` false. -/
theorem handleAuthReturn_failed (sid : String) (answer : FetchResult SessionBody) (p : Page)
    (h : exchangeFailed answer = true) :
    handleAuthReturn sid answer p =
      { p with
        requests := p.requests ++ [Request.authSession sid]
        consoleErrors :=
          match answer with
          | FetchResult.response _ (some _) => p.consoleErrors
          | _ => p.consoleErrors ++ ["Auth error:"]
        loading := false } := by
  unfold handleAuthReturn
  rcases answer with _ | ⟨status, _ | data⟩
  · rfl
  · rfl
  · have hok : responseOk status = false := by simpa [exchangeFailed] using h
    simp [hok]

/-- C6: when the code exchange is answered with a status that is not 2xx, or the
request or the decoding of its body throws, `handleAuthReturn` leaves the
in-memory token, the persisted entry and `user` as they were (absent, absent and
`null` where the effect calls it), passes nothing to `alert`, and sets `loading`
to false, so the screen is LANDING. -/
theorem C6_exchange_failure (sid : String) (answer : FetchResult SessionBody) (p : Page)
    (h : exchangeFailed answer = true) :
    (handleAuthReturn sid answer p).sessionToken = p.sessionToken ∧
      (handleAuthReturn sid answer p).storage = p.storage ∧
      (handleAuthReturn sid answer p).user = p.user ∧
      (handleAuthReturn sid answer p).alerts = p.alerts ∧
      (handleAuthReturn sid answer p).loading = false ∧
      (p.user = JSVal.null → (handleAuthReturn sid answer p).screen = View.LANDING) ∧
      (∀ storage hash, p = Page.init storage hash →
        (Tok.ofStorage storage).truthy = false →
        (handleAuthReturn sid answer p).sessionToken.truthy = false ∧
          (handleAuthReturn sid answer p).storage = storage ∧
          (handleAuthReturn sid answer p).user = JSVal.null ∧
          (handleAuthReturn sid answer p).alerts = [] ∧
          (handleAuthReturn sid answer p).render = View.LANDING) := by
  rw [handleAuthReturn_failed sid answer p h]
  refine ⟨rfl, rfl, rfl, rfl, rfl, ?_, ?_⟩
  · intro hu
    simp [Page.screen, Page.render, Page.appEffect, App.render, showRegistrationEffect, hu,
      JSVal.truthy]
  · intro storage hash hp hs
    subst hp
    refine ⟨hs, rfl, rfl, rfl, ?_⟩
    simp [Page.render, App.render, Page.init, JSVal.truthy]

/-- Witness for C6: a 403 answer to the exchange at start-up. -/
theorem C6_exchange_failure_witness :
    exchangeFailed (FetchResult.response 403 (some ⟨Tok.undefined, JSVal.undefined⟩)) = true ∧
      (handleAuthReturn "abc" (FetchResult.response 403 (some ⟨Tok.undefined, JSVal.undefined⟩))
        (Page.init none [("session_id", "abc")])).render = View.LANDING ∧
      (handleAuthReturn "abc" (FetchResult.response 403 (some ⟨Tok.undefined, JSVal.undefined⟩))
        (Page.init none [("session_id", "abc")])).storage = none :=
  ⟨by decide,
    ((C6_exchange_failure "abc" (FetchResult.response 403 (some ⟨Tok.undefined, JSVal.undefined⟩))
      (Page.init none [("session_id", "abc")]) (by decide)).2.2.2.2.2.2 none _ rfl rfl).2.2.2.2,
    (C6_exchange_failure "abc" (FetchResult.response 403 (some ⟨Tok.undefined, JSVal.undefined⟩))
      (Page.init none [("session_id", "abc")]) (by decide)).2.1⟩

/-- C4: a page loaded with a stored token while the fragment still carries
`session_id=abc` shows DASHBOARD. There `logout` clears `user`, the in-memory
token and the persisted entry, and the screen is LANDING. The start-up effect,
evaluated again for the changed token, then issues the code exchange for `abc`;
on a 2xx answer a token is stored again and the screen is DASHBOARD, without
`login` having been called. -/
theorem C4_logout_then_exchange :
    signedInWithFragment.render = View.DASHBOARD ∧
      (logout signedInWithFragment).user = JSVal.null ∧
      (logout signedInWithFragment).sessionToken = Tok.null ∧
      (logout signedInWithFragment).storage = none ∧
      (logout signedInWithFragment).screen = View.LANDING ∧
      issuedSince (logout signedInWithFragment)
          (startupEffect FetchResult.networkError
            (FetchResult.response 200 (some ⟨Tok.str "t2", completedUser⟩))
            (logout signedInWithFragment))
        = [Request.authSession "abc"] ∧
      (startupEffect FetchResult.networkError
        (FetchResult.response 200 (some ⟨Tok.str "t2", completedUser⟩))
        (logout signedInWithFragment)).screen = View.DASHBOARD ∧
      (startupEffect FetchResult.networkError
        (FetchResult.response 200 (some ⟨Tok.str "t2", completedUser⟩))
        (logout signedInWithFragment)).sessionToken = Tok.str "t2" ∧
      (startupEffect FetchResult.networkError
        (FetchResult.response 200 (some ⟨Tok.str "t2", completedUser⟩))
        (logout signedInWithFragment)).storage = some "t2" := by
  refine ⟨?_, ?_, ?_, ?_, ?_, ?_, ?_, ?_, ?_⟩ <;> rfl

/-! ## Registration form -/

/-- C7: on the registering page the user carries `user_id`; after a 2xx answer
to the profile submission the local user is exactly the form's fields followed by
`profile_completed: true`, so `user_id` reads `undefined`; only the submission was
issued and the screen is DASHBOARD. -/
theorem C7_submit_drops_user_fields :
    registering.user.get "user_id" = JSVal.str "u1" ∧
      (handleSubmit (FetchResult.response 200 none) registering ⟨filledForm, false⟩).1.user
        = updatedUser filledForm ∧
      (handleSubmit (FetchResult.response 200 none) registering ⟨filledForm, false⟩).1.user.get
          "user_id" = JSVal.undefined ∧
      issuedSince registering
          (handleSubmit (FetchResult.response 200 none) registering ⟨filledForm, false⟩).1
        = [Request.completeProfile (Tok.str "t") (submitBody filledForm)] ∧
      (handleSubmit (FetchResult.response 200 none) registering ⟨filledForm, false⟩).1.render
        = View.DASHBOARD := by
  refine ⟨?_, ?_, ?_, ?_, ?_⟩ <;> rfl

/-- C8: a 401 answer to the profile submission leaves the token in memory and in
storage and the screen at REGISTRATION; the bookings fetch and a booking, with a
401 as the answer the server would give, leave the token in memory and in
storage and the screen at DASHBOARD. -/
theorem C8_unauthorized_keeps_session :
    (handleSubmit (FetchResult.response 401 none) registering ⟨filledForm, false⟩).1.sessionToken
        = Tok.str "t" ∧
      (handleSubmit (FetchResult.response 401 none) registering ⟨filledForm, false⟩).1.storage
        = some "t" ∧
      (handleSubmit (FetchResult.response 401 none) registering ⟨filledForm, false⟩).1.screen
        = View.REGISTRATION ∧
      (fetchMyBookings (FetchResult.response 401 none) signedIn Dashboard.init).1.sessionToken
        = Tok.str "t" ∧
      (fetchMyBookings (FetchResult.response 401 none) signedIn Dashboard.init).1.storage
        = some "t" ∧
      (fetchMyBookings (FetchResult.response 401 none) signedIn Dashboard.init).1.screen
        = View.DASHBOARD ∧
      (bookSession (JSVal.str "s1")
        (FetchResult.response 401 (some (JSVal.obj [("detail", JSVal.str "Not authenticated")])))
        FetchResult.networkError FetchResult.networkError signedIn Dashboard.init).1.sessionToken
        = Tok.str "t" ∧
      (bookSession (JSVal.str "s1")
        (FetchResult.response 401 (some (JSVal.obj [("detail", JSVal.str "Not authenticated")])))
        FetchResult.networkError FetchResult.networkError signedIn Dashboard.init).1.storage
        = some "t" ∧
      (bookSession (JSVal.str "s1")
        (FetchResult.response 401 (some (JSVal.obj [("detail", JSVal.str "Not authenticated")])))
        FetchResult.networkError FetchResult.networkError signedIn Dashboard.init).1.screen
        = View.DASHBOARD := by
  refine ⟨?_, ?_, ?_, ?_, ?_, ?_, ?_, ?_, ?_⟩ <;> rfl

/-- The request `handleSubmit` issues and what its body carries: whatever the
text of the form and whatever the answer, one request to
`/api/users/complete-profile` with the current token, `parseInt` of the age text
and `parseFloat` of the weight and height texts; nothing is passed to `alert`. -/
theorem handleSubmit_transmits (answer : FetchResult JSVal) (p : Page)
    (r : RegistrationForm) :
    (handleSubmit answer p r).1.requests
        = p.requests ++ [Request.completeProfile p.sessionToken (submitBody r.formData)] ∧
      (submitBody r.formData).get "age" = JSVal.num (parseInt r.formData.age) ∧
      (submitBody r.formData).get "weight" = JSVal.num (parseFloat r.formData.weight) ∧
      (submitBody r.formData).get "height" = JSVal.num (parseFloat r.formData.height) ∧
      (handleSubmit answer p r).1.alerts = p.alerts := by
  refine ⟨?_, rfl, rfl, rfl, ?_⟩
  · unfold handleSubmit
    rcases answer with _ | ⟨status, body⟩
    · rfl
    · cases hok : responseOk status <;> simp [hok]
  · unfold handleSubmit
    rcases answer with _ | ⟨status, body⟩
    · rfl
    · cases hok : responseOk status <;> simp [hok]

/-- A form whose controls are not all valid is not submitted: nothing is
requested and no cell changes. In particular an empty text, or one that is not
a valid floating-point number, in `age`, `weight` or `height` stops it. -/
theorem submitForm_blocked (answer : FetchResult JSVal) (p : Page) (r : RegistrationForm)
    (h : isValidFloatingPointNumber r.formData.age = false ∨
      isValidFloatingPointNumber r.formData.weight = false ∨
      isValidFloatingPointNumber r.formData.height = false) :
    submitForm answer p r = (p, r) := by
  have hv : formValid r.formData = false := by
    unfold formValid
    rcases h with h | h | h <;> simp [h]
  simp [submitForm, hv]

/-- A decimal digit is one of the characters `0` to `9`. -/
theorem isRadixDigit_ten (c : Char) (h : isRadixDigit 10 c = true) :
    48 ≤ c.toNat ∧ c.toNat ≤ 57 := by
  unfold isRadixDigit digitValue at h
  simp only at h
  split_ifs at h with h1 h2 h3
  · exact h1
  · simp at h; omega
  · simp at h; omega

/-- A valid floating-point number starts, after its optional minus sign, with
a digit or a dot. -/
theorem head_of_valid (s : String) (h : isValidFloatingPointNumber s = true) :
    ∃ c rest, dropMinus s.data = c :: rest ∧ (isRadixDigit 10 c = true ∨ c = '.') := by
  unfold isValidFloatingPointNumber at h
  cases hcs : dropMinus s.data with
  | nil => simp [hcs, isExponentOrEmpty] at h
  | cons c rest =>
    refine ⟨c, rest, rfl, ?_⟩
    by_cases hd : isRadixDigit 10 c = true
    · exact Or.inl hd
    · right
      simp only [hcs, List.dropWhile, List.takeWhile, hd] at h
      split at h
      · rename_i heq
        cases heq
        rfl
      · simp at h

/-- No character from the minus sign to `9` is white space. -/
theorem not_whiteSpace_of_range (c : Char) (h : 45 ≤ c.toNat ∧ c.toNat ≤ 57) :
    isStrWhiteSpaceChar c = false := by
  unfold isStrWhiteSpaceChar
  simp only [Bool.or_eq_false_iff, decide_eq_false_iff_not, Bool.and_eq_false_iff]
  omega

/-- On a valid floating-point number the parsers skip nothing but the minus
sign. -/
theorem unsigned_of_valid (s : String) (h : isValidFloatingPointNumber s = true) :
    dropSign (s.data.dropWhile isStrWhiteSpaceChar) = dropMinus s.data := by
  obtain ⟨c, rest, hc, hd⟩ := head_of_valid s h
  have hrange : 46 ≤ c.toNat ∧ c.toNat ≤ 57 := by
    rcases hd with hd | hd
    · have := isRadixDigit_ten c hd
      omega
    · subst hd
      decide
  cases hcs : s.data with
  | nil => simp [hcs, dropMinus] at hc
  | cons a tl =>
    rw [hcs] at hc
    by_cases ha : a = '-'
    · subst ha
      have hw : isStrWhiteSpaceChar '-' = false := by decide
      simp [List.dropWhile, hw, dropSign, dropMinus]
    · have hac : a :: tl = c :: rest := by
        unfold dropMinus at hc
        split at hc
        · rename_i heq
          cases heq
          exact absurd rfl ha
        · exact hc
      cases hac
      have hw : isStrWhiteSpaceChar c = false :=
        not_whiteSpace_of_range c ⟨by omega, hrange.2⟩
      have hplus : c ≠ '+' := by
        intro hp
        subst hp
        revert hrange
        decide
      have hdw : List.dropWhile isStrWhiteSpaceChar (c :: rest) = c :: rest := by
        simp [List.dropWhile, hw]
      rw [hdw, hc]
      unfold dropSign
      split
      · rename_i heq
        cases heq
        exact absurd rfl ha
      · rename_i heq
        cases heq
        exact absurd rfl hplus
      · rfl

/-- The function `parseFloat` reads a number from every valid floating-point
number. -/
theorem parseFloat_of_valid (s : String) (h : isValidFloatingPointNumber s = true) :
    parseFloat s ≠ JSNum.nan := by
  obtain ⟨c, rest, hc, hd⟩ := head_of_valid s h
  have hI : "Infinity".data.isPrefixOf (dropMinus s.data) = false := by
    rw [hc]
    have hne : c ≠ 'I' := by
      rcases hd with hd | hd
      · intro hI
        subst hI
        revert hd
        decide
      · subst hd
        decide
    simp [List.isPrefixOf, hne.symm]
  unfold parseFloat
  simp only [unsigned_of_valid s h, hI]
  unfold isValidFloatingPointNumber at h
  intro hnan
  split at h
  · rename_i r heq
    simp only [heq] at hnan
    simp only [Bool.and_eq_true, Bool.not_eq_true'] at h
    simp [h.1] at hnan
  · rename_i r hne
    simp only [Bool.and_eq_true, Bool.not_eq_true'] at h
    simp [h.1] at hnan

/-- The function `parseInt` reads a number from every valid floating-point
number that does not start, after its optional minus sign, with a dot. -/
theorem parseInt_of_valid (s : String) (h : isValidFloatingPointNumber s = true)
    (hdot : ∀ rest, dropMinus s.data ≠ '.' :: rest) : parseInt s ≠ JSNum.nan := by
  obtain ⟨c, rest, hc, hd⟩ := head_of_valid s h
  have hdig : isRadixDigit 10 c = true := by
    rcases hd with hd | hd
    · exact hd
    · subst hd
      exact absurd hc (hdot rest)
  have hx : ∀ x, (x = 'x' ∨ x = 'X') → ∀ r, c :: rest ≠ '0' :: x :: r := by
    intro x hxx r heq
    cases heq
    unfold isValidFloatingPointNumber at h
    have h0 : isRadixDigit 10 '0' = true := by decide
    have hxd : isRadixDigit 10 x = false := by
      rcases hxx with hxx | hxx <;> subst hxx <;> decide
    have hxe : (x = 'e' ∨ x = 'E') → False := by
      rcases hxx with hxx | hxx <;> subst hxx <;> decide
    have hxdot : x ≠ '.' := by
      rcases hxx with hxx | hxx <;> subst hxx <;> decide
    simp only [hc, List.dropWhile, List.takeWhile, h0, hxd] at h
    split at h
    · rename_i heq
      cases heq
      exact hxdot rfl
    · simp [isExponentOrEmpty] at h
      exact hxe h.1
  unfold parseInt
  simp only [unsigned_of_valid s h, hc]
  have hradix : (match c :: rest with
      | '0' :: 'x' :: _ => 16
      | '0' :: 'X' :: _ => 16
      | _ => 10) = 10 := by
    split
    · rename_i heq
      exact absurd heq (hx 'x' (Or.inl rfl) _)
    · rename_i heq
      exact absurd heq (hx 'X' (Or.inr rfl) _)
    · rfl
  have hbody : (match c :: rest with
      | '0' :: 'x' :: r => r
      | '0' :: 'X' :: r => r
      | cs => cs) = c :: rest := by
    split
    · rename_i heq
      exact absurd heq (hx 'x' (Or.inl rfl) _)
    · rename_i heq
      exact absurd heq (hx 'X' (Or.inr rfl) _)
    · rfl
  rw [hradix, hbody]
  simp [List.takeWhile, hdig]

/-- What a submitted form carries: the weight and the height are numbers, and
the age is a number unless its text starts, after its optional minus sign, with
a dot. -/
theorem submitForm_numbers (f : FormData) (h : formValid f = true) :
    parseFloat f.weight ≠ JSNum.nan ∧ parseFloat f.height ≠ JSNum.nan ∧
      ((∀ rest, dropMinus f.age.data ≠ '.' :: rest) → parseInt f.age ≠ JSNum.nan) := by
  unfold formValid at h
  simp only [Bool.and_eq_true] at h
  exact ⟨parseFloat_of_valid f.weight h.1.1.1.1.2, parseFloat_of_valid f.height h.1.1.1.2,
    parseInt_of_valid f.age h.1.1.1.1.1.2⟩

/-- C9: the filled form with the age typed as `.25e2` passes the constraints of
the controls, and `parseFloat` reads 25 from that text, but `parseInt` reads
`NaN`; the form is submitted and the request to `/api/users/complete-profile`
is issued with `NaN` as its age. The initial form, whose three numeric texts
are empty, is not submitted. -/
theorem C9_leading_dot_age_is_transmitted :
    formValid dottedAgeForm = true ∧
      parseFloat dottedAgeForm.age = JSNum.fin false 25 0 ∧
      parseInt dottedAgeForm.age = JSNum.nan ∧
      issuedSince registering
          (submitForm (FetchResult.response 200 none) registering ⟨dottedAgeForm, false⟩).1
        = [Request.completeProfile (Tok.str "t") (submitBody dottedAgeForm)] ∧
      (submitBody dottedAgeForm).get "age" = JSVal.num JSNum.nan ∧
      (submitForm (FetchResult.response 200 none) registering ⟨dottedAgeForm, false⟩).1.alerts
        = [] ∧
      formValid FormData.initial = false ∧
      issuedSince registering
          (submitForm (FetchResult.response 200 none) registering ⟨FormData.initial, false⟩).1
        = [] := by
  refine ⟨?_, ?_, ?_, ?_, ?_, ?_, ?_, ?_⟩ <;> rfl

/-! ## Dashboard lists -/

/-- C10: `fetchMyBookings` ends at its call of `useAuth()`: whatever the server
would answer, no request is issued and no cell of the page or of the dashboard
changes. At mount `myBookings` is empty, so the block shown for
`myBookings.length === 0` is displayed when the fetch would fail (401, network
error) exactly as when it would return an empty list, or a booking. -/
theorem C10_bookings_never_fetched (answer : FetchResult (List JSVal)) (p : Page)
    (d : Dashboard) :
    fetchMyBookings answer p d = (p, d) ∧
      issuedSince p (fetchMyBookings answer p d).1 = [] ∧
      (fetchMyBookings answer signedIn Dashboard.init).2.showsNoBookings = true ∧
      fetchMyBookings (FetchResult.response 401 none) signedIn Dashboard.init
        = fetchMyBookings (FetchResult.response 200 (some [])) signedIn Dashboard.init ∧
      (fetchMyBookings
        (FetchResult.response 200 (some [JSVal.obj [("booking_id", JSVal.str "b1")]]))
        signedIn Dashboard.init).2.myBookings = [] := by
  refine ⟨rfl, ?_, rfl, rfl, rfl⟩
  simp [issuedSince, fetchMyBookings, useAuth]

/-! ## Booking -/

/-- The list cells a list fetch leaves: the fetched cell is the decoded body of
a 2xx answer or its prior value, the other cell is untouched. -/
theorem fetchTrainingSessions_lists (answer : FetchResult (List JSVal)) (p : Page)
    (d : Dashboard) :
    (fetchTrainingSessions answer p d).2.trainingSessions = answer.bodyOr d.trainingSessions ∧
      (fetchTrainingSessions answer p d).2.myBookings = d.myBookings ∧
      (fetchTrainingSessions answer p d).1.requests = p.requests ++ [Request.trainingSessions] ∧
      (fetchTrainingSessions answer p d).1.sessionToken = p.sessionToken := by
  unfold fetchTrainingSessions FetchResult.bodyOr
  rcases answer with _ | ⟨status, _ | body⟩
  · exact ⟨rfl, rfl, rfl, rfl⟩
  · cases hok : responseOk status <;> simp [hok]
  · cases hok : responseOk status <;> simp [hok]

/-- The requests issued since a state that has grown by a list of requests. -/
theorem issuedSince_append (p q : Page) (rs : List Request)
    (h : q.requests = p.requests ++ rs) : issuedSince p q = rs := by
  simp [issuedSince, h]

/-- C11: `bookSession` ends at its call of `useAuth()`: whatever the session
and whatever the server would answer, no booking is posted, no list is fetched
again, nothing is passed to `alert` and no cell of the page or of the dashboard
changes. -/
theorem C11_booking_never_sent (sessionId : JSVal) (post : FetchResult JSVal)
    (sessions mine : FetchResult (List JSVal)) (p : Page) (d : Dashboard) :
    bookSession sessionId post sessions mine p d = (p, d) ∧
      issuedSince p (bookSession sessionId post sessions mine p d).1 = [] ∧
      issuedSince signedIn
          (bookSession (JSVal.str "s1") (FetchResult.response 201 none)
            (FetchResult.response 200 (some [JSVal.obj [("session_id", JSVal.str "s1")]]))
            (FetchResult.response 200 (some [JSVal.obj [("booking_id", JSVal.str "b1")]]))
            signedIn Dashboard.init).1
        = [] ∧
      (bookSession (JSVal.str "s1") (FetchResult.response 201 none)
        (FetchResult.response 200 (some [JSVal.obj [("session_id", JSVal.str "s1")]]))
        (FetchResult.response 200 (some [JSVal.obj [("booking_id", JSVal.str "b1")]]))
        signedIn Dashboard.init).2 = Dashboard.init := by
  refine ⟨rfl, ?_, rfl, rfl⟩
  simp [issuedSince, bookSession, useAuth]

/-- C12: a profile submission that fails, by a network error or by a 500 answer,
passes nothing to `alert` and leaves the registration screen as it was; a
booking passes nothing to `alert` either, whatever the answer would be. -/
theorem C12_failed_submit_is_silent :
    (handleSubmit FetchResult.networkError registering ⟨filledForm, false⟩).1.alerts = [] ∧
      (handleSubmit (FetchResult.response 500 none) registering ⟨filledForm, false⟩).1.alerts
        = [] ∧
      (handleSubmit (FetchResult.response 500 none) registering ⟨filledForm, false⟩).1.screen
        = View.REGISTRATION ∧
      (handleSubmit (FetchResult.response 500 none) registering ⟨filledForm, false⟩).1.consoleErrors
        = [] ∧
      (bookSession (JSVal.str "s1")
        (FetchResult.response 400 (some (JSVal.obj [("detail", JSVal.str "Session is full")])))
        FetchResult.networkError FetchResult.networkError signedIn Dashboard.init).1.alerts
        = [] ∧
      (bookSession (JSVal.str "s1") FetchResult.networkError
        FetchResult.networkError FetchResult.networkError signedIn Dashboard.init).1.alerts
        = [] := by
  refine ⟨?_, ?_, ?_, ?_, ?_, ?_⟩ <;> rfl

/-! ## Booking button -/

/-- Two numbers that are `==` are `>=`. -/
theorem JSNum.ge_of_looseEq (a b : JSNum) (h : a.looseEq b = true) : a.ge b = true := by
  cases a <;> cases b <;> simp [JSNum.looseEq] at h
  · rename_i x y
    subst h
    cases x <;> simp [JSNum.ge]
  · simp [JSNum.ge, h]

/-- C13: the booking button of a session whose `current_participants` equals
its `max_participants` is disabled whatever `loading` is; the button is disabled
exactly when `loading` holds or `current_participants >= max_participants`, and
its text is `Мест нет` exactly when `current_participants >= max_participants`. -/
theorem C13_full_session_disabled (loading : Bool) (current max : JSNum) :
    (current.looseEq max = true → bookButtonDisabled loading current max = true) ∧
      (bookButtonDisabled loading current max = true ↔
        loading = true ∨ current.ge max = true) ∧
      (bookButtonLabel current max = "Мест нет" ↔ current.ge max = true) := by
  refine ⟨?_, ?_, ?_⟩
  · intro h
    simp [bookButtonDisabled, JSNum.ge_of_looseEq current max h]
  · simp [bookButtonDisabled]
  · unfold bookButtonLabel
    cases current.ge max
    · simp
    · simp

/-- Witness for C13: ten participants of ten, given once as `10` and once as
`1e1`, with `loading` false. -/
theorem C13_full_session_disabled_witness :
    (JSNum.fin false 10 0).looseEq (JSNum.fin false 1 1) = true ∧
      bookButtonDisabled false (JSNum.fin false 10 0) (JSNum.fin false 1 1) = true ∧
      bookButtonLabel (JSNum.fin false 9 0) (JSNum.fin false 10 0) = "Записаться" :=
  ⟨by decide,
    (C13_full_session_disabled false (JSNum.fin false 10 0) (JSNum.fin false 1 1)).1 (by decide),
    by decide⟩

/-! ## The session store -/

/-- The store read at load is the token in memory, and `logout`, the profile
fetch, a failed exchange and an exchange answered with a string token keep it
so. -/
theorem storeConsistent_preserved (p : Page) (h : p.storeConsistent) :
    (∀ storage hash, (Page.init storage hash).storeConsistent) ∧
      (logout p).storeConsistent ∧
      (∀ answer, (fetchUserProfile answer p).storeConsistent) ∧
      (∀ sid answer, exchangeFailed answer = true →
        (handleAuthReturn sid answer p).storeConsistent) ∧
      (∀ sid status t u,
        (handleAuthReturn sid (FetchResult.response status (some ⟨Tok.str t, u⟩))
          p).storeConsistent) := by
  unfold Page.storeConsistent at *
  refine ⟨fun _ _ => rfl, rfl, ?_, ?_, ?_⟩
  · intro answer
    unfold fetchUserProfile
    rcases answer with _ | ⟨status, _ | body⟩
    · rfl
    · cases hok : responseOk status <;> simp [hok, logout] <;> rfl
    · cases hok : responseOk status <;> simp [hok, logout] <;> first | exact h | rfl
  · intro sid answer hf
    rw [handleAuthReturn_failed sid answer p hf]
    exact h
  · intro sid status t u
    unfold handleAuthReturn
    cases hok : responseOk status <;> simp [hok] <;> first | exact h | rfl

/-- C14: an exchange answered 200 with a body that has no `session_token`
leaves `undefined` in memory and the text `undefined` in storage; a reload then
starts with the token `"undefined"` and sends it to the profile endpoint. An
empty `session_token` is stored as it is held. -/
theorem C14_missing_token_stored_as_text :
    exchangedWithoutToken.sessionToken = Tok.undefined ∧
      exchangedWithoutToken.storage = some "undefined" ∧
      ¬ exchangedWithoutToken.storeConsistent ∧
      (Page.init exchangedWithoutToken.storage exchangedWithoutToken.hash).sessionToken
        = Tok.str "undefined" ∧
      (startupEffect FetchResult.networkError FetchResult.networkError
        (Page.init exchangedWithoutToken.storage exchangedWithoutToken.hash)).requests
        = [Request.usersProfile (Tok.str "undefined")] ∧
      (handleAuthReturn "abc" (FetchResult.response 200 (some ⟨Tok.str "", completedUser⟩))
        (Page.init none [("session_id", "abc")])).storeConsistent := by
  refine ⟨rfl, rfl, ?_, rfl, rfl, rfl⟩
  unfold Page.storeConsistent
  decide

/-! ## Runs: the code is exchanged at most once -/

/-- The three branches of the start-up effect. -/
theorem startupEffect_cases (profile : FetchResult JSVal) (exchange : FetchResult SessionBody)
    (p : Page) :
    (p.sessionToken.truthy = true ∧
        startupEffect profile exchange p = fetchUserProfile profile p) ∨
      (p.sessionToken.truthy = false ∧ ∃ sid, searchParamsGet "session_id" p.hash = some sid ∧
        startupEffect profile exchange p = handleAuthReturn sid exchange p) ∨
      (p.sessionToken.truthy = false ∧
        startupEffect profile exchange p = { p with loading := false }) := by
  unfold startupEffect startupAction
  cases ht : p.sessionToken.truthy
  · right
    cases hs : searchParamsGet "session_id" p.hash with
    | none => right; simp
    | some sid =>
      by_cases hne : sid = ""
      · right; simp [hne]
      · left; exact ⟨rfl, sid, rfl, by simp [hne]⟩
  · left; simp

/-- The profile fetch either sets the user and keeps the token, or ends as
`logout` does. -/
theorem fetchUserProfile_cases (answer : FetchResult JSVal) (p : Page) :
    (∃ u, fetchUserProfile answer p =
        { p with
          requests := p.requests ++ [Request.usersProfile p.sessionToken]
          user := u
          loading := false }) ∨
      (∃ errs, fetchUserProfile answer p =
        { logout p with
          requests := p.requests ++ [Request.usersProfile p.sessionToken]
          consoleErrors := errs
          loading := false }) := by
  unfold fetchUserProfile
  rcases answer with _ | ⟨status, _ | body⟩
  · right; exact ⟨_, rfl⟩
  · right
    cases hok : responseOk status
    · exact ⟨p.consoleErrors, by simp [hok, logout]⟩
    · exact ⟨p.consoleErrors ++ ["Profile fetch error:"], by simp [hok, logout]⟩
  · cases hok : responseOk status
    · right; exact ⟨p.consoleErrors, by simp [hok, logout]⟩
    · left; exact ⟨body, by simp [hok]⟩

/-- The code exchange either fails and leaves the cells but `loading`, or
stores what the answer carries and empties the fragment. -/
theorem handleAuthReturn_cases (sid : String) (answer : FetchResult SessionBody) (p : Page) :
    (∃ errs, handleAuthReturn sid answer p =
        { p with
          requests := p.requests ++ [Request.authSession sid]
          consoleErrors := errs
          loading := false }) ∨
      (∃ data : SessionBody, handleAuthReturn sid answer p =
        { p with
          requests := p.requests ++ [Request.authSession sid]
          sessionToken := data.session_token
          storage := some data.session_token.toStr
          user := data.user
          hash := []
          loading := false }) := by
  unfold handleAuthReturn
  rcases answer with _ | ⟨status, _ | data⟩
  · left; exact ⟨_, rfl⟩
  · left; exact ⟨_, rfl⟩
  · cases hok : responseOk status
    · left; exact ⟨p.consoleErrors, by simp [hok]⟩
    · right; exact ⟨data, by simp [hok]⟩

/-- The profile submission touches only the user, `showRegistration` and the
recorded effects. -/
theorem handleSubmit_cases (answer : FetchResult JSVal) (p : Page) (r : RegistrationForm) :
    ∃ u sr errs, (handleSubmit answer p r).1 =
      { p with
        requests :=
          p.requests ++ [Request.completeProfile p.sessionToken (submitBody r.formData)]
        user := u
        showRegistration := sr
        consoleErrors := errs } := by
  unfold handleSubmit
  rcases answer with _ | ⟨status, body⟩
  · exact ⟨p.user, p.showRegistration, _, rfl⟩
  · cases hok : responseOk status
    · exact ⟨p.user, p.showRegistration, p.consoleErrors, by simp [hok]⟩
    · exact ⟨updatedUser r.formData, false, p.consoleErrors, by simp [hok]⟩

/-- With no user the screen is neither the dashboard nor the registration
form. -/
theorem screen_of_null_user (p : Page) (h : p.user = JSVal.null) :
    p.screen ≠ View.DASHBOARD ∧ p.screen ≠ View.REGISTRATION := by
  have hv : p.screen = App.view p.loading p.user := rfl
  rw [hv, App.view_eq, h]
  cases p.loading <;> simp [JSVal.truthy]

/-- Counting the exchanges after one more request. -/
theorem exchangeCount_append (p q : Page) (r : Request) (h : q.requests = p.requests ++ [r]) :
    exchangeCount q = exchangeCount p + (if r.isAuthSession then 1 else 0) := by
  unfold exchangeCount
  rw [h, List.filter_append]
  cases hr : r.isAuthSession <;> simp [List.filter, hr]

/-- Each event keeps the invariant of the exchange count. -/
theorem exchangeInv_step (s s1 : Session) (e : Event) (hinv : s.exchangeInv)
    (hstep : s.step e = some s1) : s1.exchangeInv := by
  cases e with
  | effect profile exchange =>
    simp only [Session.step] at hstep
    split at hstep
    · rename_i hpend
      simp only [Option.some.injEq] at hstep
      subst hstep
      rcases hinv with ⟨hc, hu⟩ | ⟨hc, hh⟩ | ⟨_, _, _, hd⟩
      · rcases startupEffect_cases profile exchange s.page with
          ⟨ht, heq⟩ | ⟨ht, sid, _, heq⟩ | ⟨ht, heq⟩
        · rcases fetchUserProfile_cases profile s.page with ⟨u, hf⟩ | ⟨errs, hf⟩
          · left
            refine ⟨?_, ?_⟩
            · rw [exchangeCount_append s.page _ (Request.usersProfile s.page.sessionToken)
                (by simp [heq, hf, Page.appEffect])]
              simp [hc, Request.isAuthSession]
            · intro hfalse
              simp [heq, hf, Page.appEffect, ht] at hfalse
          · left
            refine ⟨?_, ?_⟩
            · rw [exchangeCount_append s.page _ (Request.usersProfile s.page.sessionToken)
                (by simp [heq, hf, Page.appEffect, logout])]
              simp [hc, Request.isAuthSession]
            · intro _
              simp [heq, hf, Page.appEffect, logout]
        · rcases handleAuthReturn_cases sid exchange s.page with ⟨errs, hf⟩ | ⟨data, hf⟩
          · right; right
            refine ⟨?_, ?_, ?_, ?_⟩
            · rw [exchangeCount_append s.page _ (Request.authSession sid)
                (by simp [heq, hf, Page.appEffect])]
              simp [hc, Request.isAuthSession]
            · simpa [heq, hf, Page.appEffect] using hu ht
            · simpa [heq, hf, Page.appEffect] using ht
            · simp [heq, hf, Page.appEffect]
          · right; left
            refine ⟨?_, ?_⟩
            · rw [exchangeCount_append s.page _ (Request.authSession sid)
                (by simp [heq, hf, Page.appEffect])]
              simp [hc, Request.isAuthSession]
            · simp [heq, hf, Page.appEffect]
        · left
          refine ⟨?_, ?_⟩
          · simpa [heq, Page.appEffect, exchangeCount] using hc
          · intro _
            simpa [heq, Page.appEffect] using hu ht
      · right; left
        have hget : searchParamsGet "session_id" s.page.hash = none := by
          rw [hh]; rfl
        rcases startupEffect_cases profile exchange s.page with
          ⟨ht, heq⟩ | ⟨ht, sid, hsid, heq⟩ | ⟨ht, heq⟩
        · rcases fetchUserProfile_cases profile s.page with ⟨u, hf⟩ | ⟨errs, hf⟩
          · refine ⟨?_, by simp [heq, hf, Page.appEffect, hh]⟩
            rw [exchangeCount_append s.page _ (Request.usersProfile s.page.sessionToken)
              (by simp [heq, hf, Page.appEffect])]
            simp [hc, Request.isAuthSession]
          · refine ⟨?_, by simp [heq, hf, Page.appEffect, logout, hh]⟩
            rw [exchangeCount_append s.page _ (Request.usersProfile s.page.sessionToken)
              (by simp [heq, hf, Page.appEffect, logout])]
            simp [hc, Request.isAuthSession]
        · rw [hget] at hsid
          cases hsid
        · exact ⟨by simpa [heq, Page.appEffect, exchangeCount] using hc,
            by simp [heq, Page.appEffect, hh]⟩
      · simp [Session.effectPending, hd] at hpend
    · cases hstep
  | logout =>
    simp only [Session.step] at hstep
    split at hstep
    · rename_i hg
      simp only [Option.some.injEq] at hstep
      subst hstep
      simp only [Bool.and_eq_true, decide_eq_true_eq] at hg
      rcases hinv with ⟨hc, _⟩ | ⟨hc, hh⟩ | ⟨_, hu, _, _⟩
      · left
        exact ⟨by simpa [Page.appEffect, logout, exchangeCount] using hc,
          fun _ => by simp [Page.appEffect, logout]⟩
      · right; left
        exact ⟨by simpa [Page.appEffect, logout, exchangeCount] using hc,
          by simp [Page.appEffect, logout, hh]⟩
      · exact absurd hg.2 (screen_of_null_user s.page hu).1
    · cases hstep
  | submit answer form =>
    simp only [Session.step] at hstep
    split at hstep
    · rename_i hg
      simp only [Option.some.injEq] at hstep
      subst hstep
      simp only [Bool.and_eq_true, decide_eq_true_eq] at hg
      obtain ⟨u, sr, errs, hf⟩ := handleSubmit_cases answer s.page ⟨form, false⟩
      rcases hinv with ⟨hc, hu⟩ | ⟨hc, hh⟩ | ⟨_, hu, _, _⟩
      · left
        refine ⟨?_, ?_⟩
        · rw [exchangeCount_append s.page _
            (Request.completeProfile s.page.sessionToken (submitBody form))
            (by simp [hf, Page.appEffect])]
          simp [hc, Request.isAuthSession]
        · intro hfalse
          have ht : s.page.sessionToken.truthy = false := by
            simpa [hf, Page.appEffect] using hfalse
          exact absurd hg.2 (screen_of_null_user s.page (hu ht)).2
      · right; left
        refine ⟨?_, by simp [hf, Page.appEffect, hh]⟩
        rw [exchangeCount_append s.page _
          (Request.completeProfile s.page.sessionToken (submitBody form))
          (by simp [hf, Page.appEffect])]
        simp [hc, Request.isAuthSession]
      · exact absurd hg.2 (screen_of_null_user s.page hu).2
    · cases hstep

/-- Every run keeps the invariant of the exchange count. -/
theorem exchangeInv_run (events : List Event) :
    ∀ s s1 : Session, s.exchangeInv → s.run events = some s1 → s1.exchangeInv := by
  induction events with
  | nil =>
    intro s s1 hinv hrun
    simp only [Session.run, Option.some.injEq] at hrun
    subst hrun
    exact hinv
  | cons e es ih =>
    intro s s1 hinv hrun
    simp only [Session.run] at hrun
    cases hs : s.step e with
    | none => simp [hs] at hrun
    | some s2 =>
      simp only [hs] at hrun
      exact ih s2 s1 (exchangeInv_step s s2 e hinv hs) hrun

/-- With an empty fragment no event exchanges a code or fills the fragment. -/
theorem emptyHash_step (s s1 : Session) (e : Event) (hh : s.page.hash = [])
    (hstep : s.step e = some s1) :
    s1.page.hash = [] ∧ exchangeCount s1.page = exchangeCount s.page := by
  have hget : searchParamsGet "session_id" s.page.hash = none := by
    rw [hh]; rfl
  cases e with
  | effect profile exchange =>
    simp only [Session.step] at hstep
    split at hstep
    · simp only [Option.some.injEq] at hstep
      subst hstep
      rcases startupEffect_cases profile exchange s.page with
        ⟨ht, heq⟩ | ⟨ht, sid, hsid, heq⟩ | ⟨ht, heq⟩
      · rcases fetchUserProfile_cases profile s.page with ⟨u, hf⟩ | ⟨errs, hf⟩
        · refine ⟨by simp [heq, hf, Page.appEffect, hh], ?_⟩
          rw [exchangeCount_append s.page _ (Request.usersProfile s.page.sessionToken)
            (by simp [heq, hf, Page.appEffect])]
          simp [Request.isAuthSession]
        · refine ⟨by simp [heq, hf, Page.appEffect, logout, hh], ?_⟩
          rw [exchangeCount_append s.page _ (Request.usersProfile s.page.sessionToken)
            (by simp [heq, hf, Page.appEffect, logout])]
          simp [Request.isAuthSession]
      · rw [hget] at hsid
        cases hsid
      · exact ⟨by simp [heq, Page.appEffect, hh], by simp [heq, Page.appEffect, exchangeCount]⟩
    · cases hstep
  | logout =>
    simp only [Session.step] at hstep
    split at hstep
    · simp only [Option.some.injEq] at hstep
      subst hstep
      exact ⟨by simp [Page.appEffect, logout, hh], by simp [Page.appEffect, logout, exchangeCount]⟩
    · cases hstep
  | submit answer form =>
    simp only [Session.step] at hstep
    split at hstep
    · simp only [Option.some.injEq] at hstep
      subst hstep
      obtain ⟨u, sr, errs, hf⟩ := handleSubmit_cases answer s.page ⟨form, false⟩
      refine ⟨by simp [hf, Page.appEffect, hh], ?_⟩
      rw [exchangeCount_append s.page _
        (Request.completeProfile s.page.sessionToken (submitBody form))
        (by simp [hf, Page.appEffect])]
      simp [Request.isAuthSession]
    · cases hstep

/-- With an empty fragment no run exchanges a code or fills the fragment. -/
theorem emptyHash_run (events : List Event) :
    ∀ s s1 : Session, s.page.hash = [] → s.run events = some s1 →
      s1.page.hash = [] ∧ exchangeCount s1.page = exchangeCount s.page := by
  induction events with
  | nil =>
    intro s s1 hh hrun
    simp only [Session.run, Option.some.injEq] at hrun
    subst hrun
    exact ⟨hh, rfl⟩
  | cons e es ih =>
    intro s s1 hh hrun
    simp only [Session.run] at hrun
    cases hs : s.step e with
    | none => simp [hs] at hrun
    | some s2 =>
      simp only [hs] at hrun
      have h2 := emptyHash_step s s2 e hh hs
      have h3 := ih s2 s1 h2.1 hrun
      exact ⟨h3.1, h3.2.trans h2.2⟩

/-- C15: in every run from a page load, whatever the stored token, the fragment,
the answers of the server and the logouts, `handleAuthReturn` is invoked at most
once; an exchange answered 2xx with a body leaves the fragment empty, and from a
state with an empty fragment no further event invokes it or fills the fragment. -/
theorem C15_exchange_at_most_once (storage : Option String) (hash : List (String × String))
    (events : List Event) (s : Session)
    (h : (Session.start storage hash).run events = some s) :
    exchangeCount s.page ≤ 1 ∧
      (∀ sid status data p, responseOk status = true →
        (handleAuthReturn sid (FetchResult.response status (some data)) p).hash = []) ∧
      (∀ more s1, s.page.hash = [] → s.run more = some s1 →
        s1.page.hash = [] ∧ exchangeCount s1.page = exchangeCount s.page) := by
  have hstart : (Session.start storage hash).exchangeInv := by
    left
    exact ⟨rfl, fun _ => rfl⟩
  have hinv := exchangeInv_run events _ s hstart h
  refine ⟨?_, ?_, ?_⟩
  · rcases hinv with ⟨hc, _⟩ | ⟨hc, _⟩ | ⟨hc, _⟩ <;> omega
  · intro sid status data p hok
    simp [handleAuthReturn, hok]
  · intro more s1 hh hrun
    exact emptyHash_run more s s1 hh hrun

/-- Witness for C15: a load with a stored token and `session_id=abc` in the
fragment, two logouts and a successful exchange between them; the code is
exchanged once. -/
theorem C15_exchange_at_most_once_witness :
    (Session.start (some "t") [("session_id", "abc")]).run logoutTwice = some afterLogoutTwice ∧
      exchangeCount afterLogoutTwice.page = 1 ∧
      exchangeCount afterLogoutTwice.page ≤ 1 :=
  ⟨rfl, rfl,
    (C15_exchange_at_most_once (some "t") [("session_id", "abc")] logoutTwice afterLogoutTwice
      rfl).1⟩

/-! ## After the exchange -/

/-- C16 as stated fails: after an exchange answered 200 with the token `t` and a
user whose profile is not completed the screen is REGISTRATION and the start-up
effect is due again; when the profile request it issues is answered 401 the
token is gone from memory and storage and the screen is LANDING, and when it is
answered 200 with a completed profile the screen is DASHBOARD. -/
theorem C16_later_profile_answer_decides :
    registering.user = newUser ∧
      registering.screen = View.REGISTRATION ∧
      Session.effectPending ⟨registering, some Tok.null⟩ = true ∧
      (Page.onEffect (FetchResult.response 401 none) FetchResult.networkError
        registering).screen = View.LANDING ∧
      (Page.onEffect (FetchResult.response 401 none) FetchResult.networkError
        registering).sessionToken = Tok.null ∧
      (Page.onEffect (FetchResult.response 401 none) FetchResult.networkError
        registering).storage = none ∧
      (Page.onEffect (FetchResult.response 200 (some completedUser)) FetchResult.networkError
        registering).screen = View.DASHBOARD := by
  refine ⟨?_, ?_, ?_, ?_, ?_, ?_, ?_⟩ <;> rfl

/-- C16, amended: after a successful code exchange that stores a non-empty
token the screen follows the returned user, and the start-up effect is due again
and issues the profile request for the new token. The state then follows the
answer to that request: when it fails the token is cleared from memory and
storage and the screen is LANDING; when it is answered 2xx with a profile the
user is that profile, the token stays stored and the screen follows the
profile. Evaluating the start-up effect once more on the same answers leaves
the cells of the page as they are. -/
theorem C16_profile_fetch_decides (storage : Option String) (hash : List (String × String))
    (sid t : String) (status : Nat) (u : JSVal) (profile0 profile : FetchResult JSVal)
    (exchange : FetchResult SessionBody)
    (hstore : (Tok.ofStorage storage).truthy = false)
    (hsid : searchParamsGet "session_id" hash = some sid) (hne : sid ≠ "")
    (hok : responseOk status = true) (ht : t ≠ "") :
    (Page.onEffect profile0 (FetchResult.response status (some ⟨Tok.str t, u⟩))
        (Page.init storage hash)).screen = App.view false u ∧
      Session.effectPending
        ⟨Page.onEffect profile0 (FetchResult.response status (some ⟨Tok.str t, u⟩))
          (Page.init storage hash), some (Tok.ofStorage storage)⟩ = true ∧
      issuedSince
          (Page.onEffect profile0 (FetchResult.response status (some ⟨Tok.str t, u⟩))
            (Page.init storage hash))
          (Page.onEffect profile exchange
            (Page.onEffect profile0 (FetchResult.response status (some ⟨Tok.str t, u⟩))
              (Page.init storage hash)))
        = [Request.usersProfile (Tok.str t)] ∧
      (profile.failed = true →
        (Page.onEffect profile exchange
          (Page.onEffect profile0 (FetchResult.response status (some ⟨Tok.str t, u⟩))
            (Page.init storage hash))).sessionToken = Tok.null ∧
        (Page.onEffect profile exchange
          (Page.onEffect profile0 (FetchResult.response status (some ⟨Tok.str t, u⟩))
            (Page.init storage hash))).storage = none ∧
        (Page.onEffect profile exchange
          (Page.onEffect profile0 (FetchResult.response status (some ⟨Tok.str t, u⟩))
            (Page.init storage hash))).screen = View.LANDING) ∧
      (∀ status1 u1, profile = FetchResult.response status1 (some u1) →
        responseOk status1 = true →
        (Page.onEffect profile exchange
          (Page.onEffect profile0 (FetchResult.response status (some ⟨Tok.str t, u⟩))
            (Page.init storage hash))).user = u1 ∧
        (Page.onEffect profile exchange
          (Page.onEffect profile0 (FetchResult.response status (some ⟨Tok.str t, u⟩))
            (Page.init storage hash))).sessionToken = Tok.str t ∧
        (Page.onEffect profile exchange
          (Page.onEffect profile0 (FetchResult.response status (some ⟨Tok.str t, u⟩))
            (Page.init storage hash))).storage = some t ∧
        (Page.onEffect profile exchange
          (Page.onEffect profile0 (FetchResult.response status (some ⟨Tok.str t, u⟩))
            (Page.init storage hash))).screen = App.view false u1) ∧
      (Page.onEffect profile exchange
          (Page.onEffect profile exchange
            (Page.onEffect profile0 (FetchResult.response status (some ⟨Tok.str t, u⟩))
              (Page.init storage hash)))).cells
        = (Page.onEffect profile exchange
            (Page.onEffect profile0 (FetchResult.response status (some ⟨Tok.str t, u⟩))
              (Page.init storage hash))).cells := by
  have hact := startupAction_fragment (Page.init storage hash) sid hstore hsid hne
  have hp1 : Page.onEffect profile0 (FetchResult.response status (some ⟨Tok.str t, u⟩))
      (Page.init storage hash) =
      { Page.init storage hash with
        requests := [Request.authSession sid]
        sessionToken := Tok.str t
        storage := some t
        user := u
        hash := []
        loading := false
        showRegistration := showRegistrationEffect u } := by
    simp only [Page.onEffect, startupEffect, hact]
    simp [handleAuthReturn, hok, Page.init, Tok.toStr, Page.appEffect]
  rw [hp1]
  have htok : (Tok.str t).truthy = true := by simp [Tok.truthy, ht]
  have hq : Page.onEffect profile exchange
      { Page.init storage hash with
        requests := [Request.authSession sid]
        sessionToken := Tok.str t
        storage := some t
        user := u
        hash := []
        loading := false
        showRegistration := showRegistrationEffect u }
      = (fetchUserProfile profile
          { Page.init storage hash with
            requests := [Request.authSession sid]
            sessionToken := Tok.str t
            storage := some t
            user := u
            hash := []
            loading := false
            showRegistration := showRegistrationEffect u }).appEffect := by
    have := startupAction_token
      { Page.init storage hash with
        requests := [Request.authSession sid]
        sessionToken := Tok.str t
        storage := some t
        user := u
        hash := []
        loading := false
        showRegistration := showRegistrationEffect u } htok
    simp only [Page.onEffect, startupEffect, this]
  rw [hq]
  refine ⟨rfl, ?_, ?_, ?_, ?_, ?_⟩
  · have hdiff : Tok.ofStorage storage ≠ Tok.str t := by
      intro h
      rw [h] at hstore
      rw [htok] at hstore
      cases hstore
    simp [Session.effectPending, Page.init, hdiff]
  · apply issuedSince_append
    simp [Page.appEffect, fetchUserProfile_requests, Page.init]
  · intro hf
    rw [fetchUserProfile_failed profile _ hf]
    exact ⟨rfl, rfl, rfl⟩
  · intro status1 u1 hprof hok1
    subst hprof
    simp only [fetchUserProfile, hok1, if_true]
    exact ⟨rfl, rfl, rfl, rfl⟩
  · rcases profile with _ | ⟨status1, _ | u1⟩
    · rfl
    · cases hok1 : responseOk status1 <;>
        simp [fetchUserProfile, hok1, logout, Page.appEffect, Page.onEffect, startupEffect,
          startupAction, Tok.truthy, searchParamsGet, Page.cells, Page.init]
    · cases hok1 : responseOk status1 <;>
        simp [fetchUserProfile, hok1, logout, Page.appEffect, Page.onEffect, startupEffect,
          startupAction, Tok.truthy, searchParamsGet, Page.cells, Page.init, ht]

/-- Witness for C16, amended: the fragment `session_id=abc`, an exchange
answered 200 with the token `t` and a new user, then a profile request answered
with a network error. -/
theorem C16_profile_fetch_decides_witness :
    (Page.onEffect FetchResult.networkError FetchResult.networkError
        (Page.onEffect FetchResult.networkError
          (FetchResult.response 200 (some ⟨Tok.str "t", newUser⟩))
          (Page.init none [("session_id", "abc")]))).screen = View.LANDING ∧
      (Page.onEffect FetchResult.networkError FetchResult.networkError
        (Page.onEffect FetchResult.networkError
          (FetchResult.response 200 (some ⟨Tok.str "t", newUser⟩))
          (Page.init none [("session_id", "abc")]))).storage = none :=
  have h := C16_profile_fetch_decides none [("session_id", "abc")] "abc" "t" 200 newUser
    FetchResult.networkError FetchResult.networkError FetchResult.networkError
    rfl rfl (by decide) (by decide) (by decide)
  ⟨(h.2.2.2.1 rfl).2.2, (h.2.2.2.1 rfl).2.1⟩

end AigaCase
